import Mathlib

/- Verification model of the BlenderForgeBridge memory-transfer core
   (src/memory.py).

   Modeling conventions:
   - Python byte values are Nat; the Python mask (v & 0xFF) is (v % 256) on
     Nat and Int.emod 256 (then toNat) on Int, which agree with Python
     semantics on all integers.
   - Python float values are modeled as real numbers; the f32 pack/unpack in
     the codec is treated as the identity on those reals, so the three float
     triplets of an entry live beside the byte buffer instead of inside it.
   - Blender enum properties are string valued; they are modeled by the exact
     strings the code compares against.
   - Python dict literals keep the last binding for a duplicated key, so the
     reverse-lookup dicts built by iterating OBJECT_TYPE_INFO are modeled as a
     first match over the reversed table. -/

set_option maxRecDepth 8000

namespace ForgeBridge

/-- One row of the OBJECT_TYPE_INFO table of src/memory.py: a semantic object
kind name with its (top id, sub id, pre-flags) identity triple. -/
structure TypeEntry where
  name : String
  top : Nat
  sub : Nat
  pre : Nat

def OBJECT_TYPE_INFO_1 : List TypeEntry := [
  ⟨"Magnum", 0, 0, 0⟩,
  ⟨"Magnum, Survivor", 1, 0, 0⟩,
  ⟨"SMG", 2, 0, 0⟩,
  ⟨"Suppressed SMG", 3, 0, 0⟩,
  ⟨"Assault Rifle", 4, 0, 0⟩,
  ⟨"Battle Rifle", 5, 0, 0⟩,
  ⟨"Sniper Rifle", 6, 0, 0⟩,
  ⟨"Sniper Rifle Ammo", 7, 0, 0⟩,
  ⟨"Rocket Launcher", 8, 0, 0⟩,
  ⟨"Rocket Launcher Ammo", 9, 0, 0⟩,
  ⟨"Shotgun", 10, 0, 0⟩,
  ⟨"Shotgun, Survivor", 11, 0, 0⟩,
  ⟨"Frag Grenade", 12, 0, 0⟩,
  ⟨"Fixed Machine Gun Turret", 13, 0, 0⟩,
  ⟨"Removable Machine Gun Turret", 14, 0, 0⟩,
  ⟨"Plasma Pistol", 15, 0, 0⟩,
  ⟨"Plasma Rifle", 16, 0, 0⟩,
  ⟨"Brute Plasma Rifle", 17, 0, 0⟩,
  ⟨"Covenant Carbine", 18, 0, 0⟩,
  ⟨"Needler", 19, 0, 0⟩,
  ⟨"Beam Rifle", 20, 0, 0⟩,
  ⟨"Energy Sword", 21, 0, 0⟩,
  ⟨"Energy Sword, Infected", 22, 0, 0⟩,
  ⟨"Brute Shot", 23, 0, 0⟩,
  ⟨"Fuel Rod Cannon", 24, 0, 0⟩,
  ⟨"Sentinel Beam", 25, 0, 0⟩,
  ⟨"Plasma Grenade", 26, 0, 0⟩,
  ⟨"Mounted Plasma Cannon", 27, 0, 0⟩,
  ⟨"Mongoose", 28, 0, 0⟩,
  ⟨"Gungoose", 28, 1, 0⟩,
  ⟨"Warthog, Default", 29, 0, 0⟩,
  ⟨"Warthog, Gauss", 29, 1, 0⟩,
  ⟨"Warthog, Civilian", 29, 2, 0⟩,
  ⟨"Scorpion", 30, 0, 0⟩,
  ⟨"Hornet", 31, 0, 0⟩,
  ⟨"Ghost", 32, 0, 0⟩,
  ⟨"Wraith", 33, 0, 0⟩,
  ⟨"Banshee", 34, 0, 0⟩,
  ⟨"Heretic Banshee", 34, 1, 0⟩,
  ⟨"Active Camo Powerup", 35, 0, 0⟩,
  ⟨"Overshield Powerup", 36, 0, 0⟩,
  ⟨"Speed Boost Powerup", 37, 0, 0⟩,
  ⟨"Fusion Coil", 38, 0, 0⟩,
  ⟨"Fusion Coil, EMP", 38, 1, 0⟩,
  ⟨"Landmine", 38, 2, 0⟩,
  ⟨"Landmine, EMP", 38, 3, 0⟩,
  ⟨"Fuel Canister", 38, 4, 0⟩,
  ⟨"Explosion Volume, Small", 38, 5, 0⟩,
  ⟨"Explosion Volume, Small Inv", 38, 6, 0⟩,
  ⟨"Explosion Volume, Large", 38, 7, 0⟩
]

def OBJECT_TYPE_INFO_2 : List TypeEntry := [
  ⟨"Explosion Volume, Large Inv", 38, 8, 0⟩,
  ⟨"Cannon, Man", 39, 0, 0⟩,
  ⟨"Cannon, Man, Heavy", 39, 1, 0⟩,
  ⟨"Cannon, Man, Light", 39, 2, 0⟩,
  ⟨"Cannon, Man, UNSC", 39, 3, 0⟩,
  ⟨"Cannon, Man, UNSC, Light", 39, 4, 0⟩,
  ⟨"Gravity Lift", 39, 5, 0⟩,
  ⟨"Gravity Lift, Heavy", 39, 6, 0⟩,
  ⟨"Gravity Lift, Forerunner", 39, 7, 0⟩,
  ⟨"Gravity Volume, 5x5", 40, 0, 0⟩,
  ⟨"Gravity Volume, 5x5 Inv", 40, 1, 0⟩,
  ⟨"Gravity Volume, 10x10", 40, 2, 0⟩,
  ⟨"Gravity Volume, 10x10 Inv", 40, 3, 0⟩,
  ⟨"Trait Zone", 41, 0, 0⟩,
  ⟨"Receiver Node", 42, 0, 0⟩,
  ⟨"Sender Node", 42, 1, 0⟩,
  ⟨"Two-Way Node", 42, 2, 0⟩,
  ⟨"Shield, One Way, Small", 43, 0, 0⟩,
  ⟨"Shield, One Way, Medium", 43, 1, 0⟩,
  ⟨"Shield, One Way, Large", 43, 2, 0⟩,
  ⟨"Shield, Door, Small", 43, 3, 0⟩,
  ⟨"Shield, Door, Medium", 43, 4, 0⟩,
  ⟨"Shield, Door, Large", 43, 5, 0⟩,
  ⟨"Color Blind", 44, 0, 0⟩,
  ⟨"Next Gen", 44, 1, 0⟩,
  ⟨"Juicy", 44, 2, 0⟩,
  ⟨"Nova", 44, 3, 0⟩,
  ⟨"Olde Timey", 44, 4, 0⟩,
  ⟨"Pen and Ink", 44, 5, 0⟩,
  ⟨"Die", 45, 0, 0⟩,
  ⟨"Die, Explosive", 45, 1, 0⟩,
  ⟨"Golf Ball", 45, 2, 0⟩,
  ⟨"Golf Ball, Explosive", 45, 3, 0⟩,
  ⟨"Kill Ball", 45, 4, 0⟩,
  ⟨"Soccer Ball", 45, 5, 0⟩,
  ⟨"Soccer Ball, Explosive", 45, 6, 0⟩,
  ⟨"Tin Cup", 45, 7, 0⟩,
  ⟨"Light, Red", 46, 0, 0⟩,
  ⟨"Light, Blue", 46, 1, 0⟩,
  ⟨"Light, Green", 46, 2, 0⟩,
  ⟨"Light, Orange", 46, 3, 0⟩,
  ⟨"Light, Purple", 46, 4, 0⟩,
  ⟨"Light, Yellow", 46, 5, 0⟩,
  ⟨"Light, White", 46, 6, 0⟩,
  ⟨"Light, Red, Flashing", 46, 7, 0⟩,
  ⟨"Light, Yellow, Flashing", 46, 8, 0⟩,
  ⟨"Switch", 47, 0, 0⟩,
  ⟨"EMP Device, Blue", 47, 1, 0⟩,
  ⟨"EMP Device, Red", 47, 2, 0⟩,
  ⟨"Glass Window", 47, 3, 0⟩
]

def OBJECT_TYPE_INFO_3 : List TypeEntry := [
  ⟨"Ice Stalactite", 47, 4, 0⟩,
  ⟨"Power Core", 47, 5, 0⟩,
  ⟨"Garage Door", 47, 6, 0⟩,
  ⟨"Garage Door Switch", 47, 7, 0⟩,
  ⟨"Console Switch", 47, 8, 0⟩,
  ⟨"Barrier", 47, 9, 0⟩,
  ⟨"Switch: On", 48, 0, 0⟩,
  ⟨"Switch: Off", 48, 1, 0⟩,
  ⟨"Switch: Toggle", 48, 2, 0⟩,
  ⟨"Timer: On", 49, 0, 0⟩,
  ⟨"Timer: On Once", 49, 1, 0⟩,
  ⟨"Timer: Off", 49, 2, 0⟩,
  ⟨"Timer: Off Once", 49, 3, 0⟩,
  ⟨"Timer: Toggle", 49, 4, 0⟩,
  ⟨"Timer: Toggle Once", 49, 5, 0⟩,
  ⟨"Trigger: On-Enter On", 50, 0, 0⟩,
  ⟨"Trigger: On-Enter Off", 50, 1, 0⟩,
  ⟨"Trigger: On-Enter Toggle", 50, 2, 0⟩,
  ⟨"Trigger: On-Exit On", 50, 3, 0⟩,
  ⟨"Trigger: On-Exit Off", 50, 4, 0⟩,
  ⟨"Trigger: On-Exit Toggle", 50, 5, 0⟩,
  ⟨"Trigger: On-Stay On", 50, 6, 0⟩,
  ⟨"Trigger: On-Stay Off", 50, 7, 0⟩,
  ⟨"Trigger: On-Stay Toggle", 50, 8, 0⟩,
  ⟨"Trigger: On-Destroyed", 50, 9, 0⟩,
  ⟨"Initial Spawn", 51, 0, 16⟩,
  ⟨"Respawn Point", 52, 0, 16⟩,
  ⟨"Initial Camera", 53, 0, 0⟩,
  ⟨"Respawn Zone", 54, 0, 0⟩,
  ⟨"Respawn Zone, Medium", 55, 0, 0⟩,
  ⟨"Respawn Zone, Weak", 56, 0, 0⟩,
  ⟨"Respawn Zone, Force", 57, 0, 0⟩,
  ⟨"Anti-Respawn Zone", 58, 0, 0⟩,
  ⟨"Anti-Respawn Zone, Weak", 59, 0, 0⟩,
  ⟨"Anti-Respawn Zone, Force", 60, 0, 0⟩,
  ⟨"Safe Boundary", 61, 0, 0⟩,
  ⟨"Soft Safe Boundary", 61, 1, 0⟩,
  ⟨"Kill Boundary", 62, 0, 0⟩,
  ⟨"Soft Kill Boundary", 62, 1, 0⟩,
  ⟨"Flag Stand", 63, 0, 0⟩,
  ⟨"Capture Plate", 64, 0, 0⟩,
  ⟨"Assault Bomb Spawn", 65, 0, 0⟩,
  ⟨"Oddball Ball Spawn", 66, 0, 0⟩,
  ⟨"Infection Shield, Small", 67, 0, 0⟩,
  ⟨"Infection Shield, Medium", 68, 0, 0⟩,
  ⟨"Generic", 69, 0, 0⟩,
  ⟨"King of the Hill", 69, 1, 0⟩,
  ⟨"Assault, Arming", 69, 2, 0⟩,
  ⟨"Assault, Goal", 69, 3, 0⟩,
  ⟨"Territories", 69, 4, 0⟩
]

def OBJECT_TYPE_INFO_4 : List TypeEntry := [
  ⟨"Barricade, Small", 70, 0, 0⟩,
  ⟨"Barricade, Large", 70, 1, 0⟩,
  ⟨"Jersey Barrier", 70, 2, 0⟩,
  ⟨"Jersey Barrier, Short", 70, 3, 0⟩,
  ⟨"Camping Stool", 71, 0, 0⟩,
  ⟨"Folding Chair", 72, 0, 0⟩,
  ⟨"Crate, Small", 73, 0, 0⟩,
  ⟨"Crate, Large", 73, 1, 0⟩,
  ⟨"Crate, Packing, Single", 73, 2, 0⟩,
  ⟨"Crate, Packing, Small", 73, 3, 0⟩,
  ⟨"Crate, Packing, Large", 73, 4, 0⟩,
  ⟨"Container, Small", 73, 5, 0⟩,
  ⟨"Container, Open, Small", 73, 6, 0⟩,
  ⟨"Container, Large", 73, 7, 0⟩,
  ⟨"Container, Open, Large", 73, 8, 0⟩,
  ⟨"Sandbag Wall", 74, 0, 0⟩,
  ⟨"Sandbag Corner, 90", 74, 1, 0⟩,
  ⟨"Sandbag Endcap", 74, 2, 0⟩,
  ⟨"Sandbag Pile", 74, 3, 0⟩,
  ⟨"Sandbag, Single", 74, 4, 0⟩,
  ⟨"Sandbag, Triple", 74, 5, 0⟩,
  ⟨"Sandbags, Group", 74, 6, 0⟩,
  ⟨"Street Cone", 75, 0, 0⟩,
  ⟨"Pallet", 76, 0, 0⟩,
  ⟨"Pallet, Large", 76, 1, 0⟩,
  ⟨"Pallet, Metal", 76, 2, 0⟩,
  ⟨"Flat, Small", 77, 0, 0⟩,
  ⟨"Flat, Medium", 77, 1, 0⟩,
  ⟨"Flat, Large", 77, 2, 0⟩,
  ⟨"Cliff, Small", 77, 3, 0⟩,
  ⟨"Cliff, Medium", 77, 4, 0⟩,
  ⟨"Cliff, Large", 77, 5, 0⟩,
  ⟨"Hill, Small", 77, 6, 0⟩,
  ⟨"Hill, Medium", 77, 7, 0⟩,
  ⟨"Hill, Large", 77, 8, 0⟩,
  ⟨"Grass Plane", 77, 9, 0⟩,
  ⟨"Rock 01, Small", 78, 0, 0⟩,
  ⟨"Rock 01, Medium", 78, 1, 0⟩,
  ⟨"Rock 01, Large", 78, 2, 0⟩,
  ⟨"Rock 02, Small", 78, 3, 0⟩,
  ⟨"Rock 02, Medium", 78, 4, 0⟩,
  ⟨"Rock 02, Large", 78, 5, 0⟩,
  ⟨"Rock, Spire 1", 78, 6, 0⟩,
  ⟨"Rock, Spire 2", 78, 7, 0⟩,
  ⟨"Rock, Seastack", 78, 8, 0⟩,
  ⟨"Rock, Seastack, Small", 78, 9, 0⟩,
  ⟨"Rock, Arch", 78, 10, 0⟩,
  ⟨"Tree 01, Small", 79, 0, 0⟩,
  ⟨"Tree 01, Medium", 79, 1, 0⟩,
  ⟨"Tree 01, Large", 79, 2, 0⟩
]

def OBJECT_TYPE_INFO_5 : List TypeEntry := [
  ⟨"Tree 02, Small", 79, 3, 0⟩,
  ⟨"Tree 02, Medium", 79, 4, 0⟩,
  ⟨"Tree 02, Large", 79, 5, 0⟩,
  ⟨"Tree 03, Small", 79, 6, 0⟩,
  ⟨"Tree 03, Medium", 79, 7, 0⟩,
  ⟨"Tree 03, Large", 79, 8, 0⟩,
  ⟨"Tree 04, Small", 79, 9, 0⟩,
  ⟨"Tree 04, Medium", 79, 10, 0⟩,
  ⟨"Tree 04, Large", 79, 11, 0⟩,
  ⟨"Dead Tree 01, Small", 79, 12, 0⟩,
  ⟨"Dead Tree 01, Large", 79, 13, 0⟩,
  ⟨"Dead Tree 02, Small", 79, 14, 0⟩,
  ⟨"Dead Tree 02, Large", 79, 15, 0⟩,
  ⟨"Block, 1X1", 80, 0, 0⟩,
  ⟨"Block, 1X1, Flat", 80, 1, 0⟩,
  ⟨"Block, 1X1, Short", 80, 2, 0⟩,
  ⟨"Block, 1X1, Tall", 80, 3, 0⟩,
  ⟨"Block, 1X1, Tall and Thin", 80, 4, 0⟩,
  ⟨"Block, 1X2", 80, 5, 0⟩,
  ⟨"Block, 1X4", 80, 6, 0⟩,
  ⟨"Block, 2X1, Flat", 80, 7, 0⟩,
  ⟨"Block, 2X2", 80, 8, 0⟩,
  ⟨"Block, 2X2, Flat", 80, 9, 0⟩,
  ⟨"Block, 2X2, Short", 80, 10, 0⟩,
  ⟨"Block, 2X2, Tall", 80, 11, 0⟩,
  ⟨"Block, 2X3", 80, 12, 0⟩,
  ⟨"Block, 2X4", 80, 13, 0⟩,
  ⟨"Block, 3X1, Flat", 80, 14, 0⟩,
  ⟨"Block, 3X3", 80, 15, 0⟩,
  ⟨"Block, 3X3, Flat", 80, 16, 0⟩,
  ⟨"Block, 3X3, Short", 80, 17, 0⟩,
  ⟨"Block, 3X3, Tall", 80, 18, 0⟩,
  ⟨"Block, 3X4", 80, 19, 0⟩,
  ⟨"Block, 4X4", 80, 20, 0⟩,
  ⟨"Block, 4X4, Flat", 80, 21, 0⟩,
  ⟨"Block, 4X4, Short", 80, 22, 0⟩,
  ⟨"Block, 4X4, Tall", 80, 23, 0⟩,
  ⟨"Block, 5X1, Short", 80, 24, 0⟩,
  ⟨"Block, 5x5", 80, 25, 0⟩,
  ⟨"Block, 5X5, Flat", 80, 26, 0⟩,
  ⟨"Block, 5x5, Short", 80, 27, 0⟩,
  ⟨"Block, 5x5, Tall", 80, 28, 0⟩,
  ⟨"Block, 10x10", 80, 29, 0⟩,
  ⟨"Block, 10x10, Flat", 80, 30, 0⟩,
  ⟨"Block, 10x10, Tall", 80, 31, 0⟩,
  ⟨"Bridge, Small", 81, 0, 0⟩,
  ⟨"Bridge, Medium", 81, 1, 0⟩,
  ⟨"Bridge, Large", 81, 2, 0⟩,
  ⟨"Bridge, Xlarge", 81, 3, 0⟩,
  ⟨"Bridge, Diagonal", 81, 4, 0⟩
]

def OBJECT_TYPE_INFO_6 : List TypeEntry := [
  ⟨"Bridge, Diag, Small", 81, 5, 0⟩,
  ⟨"Bridge, T-Junction", 81, 6, 0⟩,
  ⟨"Bridge, Cross Junction", 81, 7, 0⟩,
  ⟨"Dish", 81, 8, 0⟩,
  ⟨"Dish, Open", 81, 9, 0⟩,
  ⟨"Corner, 45 Degrees", 81, 10, 0⟩,
  ⟨"Corner, 2X2", 81, 11, 0⟩,
  ⟨"Corner, 4X4", 81, 12, 0⟩,
  ⟨"Landing Pad", 81, 13, 0⟩,
  ⟨"Platform, Ramped", 81, 14, 0⟩,
  ⟨"Platform, Ramped, Mirrored", 81, 15, 0⟩,
  ⟨"Platform, Large", 81, 16, 0⟩,
  ⟨"Platform, Xlarge", 81, 17, 0⟩,
  ⟨"Cylinder, Large", 81, 18, 0⟩,
  ⟨"Y Cross", 81, 19, 0⟩,
  ⟨"Y Cross, Large", 81, 20, 0⟩,
  ⟨"Y Cross, Large, Reversed", 81, 21, 0⟩,
  ⟨"Sniper Nest", 81, 22, 0⟩,
  ⟨"Staircase", 81, 23, 0⟩,
  ⟨"Staircase, Mirrored", 81, 24, 0⟩,
  ⟨"Walkway, Large", 81, 25, 0⟩,
  ⟨"Bunker, Small", 82, 0, 0⟩,
  ⟨"Bunker, Small, Covered", 82, 1, 0⟩,
  ⟨"Bunker, Box", 82, 2, 0⟩,
  ⟨"Bunker, Round", 82, 3, 0⟩,
  ⟨"Bunker, Ramp", 82, 4, 0⟩,
  ⟨"Bunker, Ramp, Mirrored", 82, 5, 0⟩,
  ⟨"Pyramid", 82, 6, 0⟩,
  ⟨"Tower, 2 Story", 82, 7, 0⟩,
  ⟨"Tower, 2 Story, Mirrored", 82, 8, 0⟩,
  ⟨"Tower, 3 Story", 82, 9, 0⟩,
  ⟨"Tower, Tall", 82, 10, 0⟩,
  ⟨"Tower, Tall, Mirrored", 82, 11, 0⟩,
  ⟨"Room, Double", 82, 12, 0⟩,
  ⟨"Room, Double, Mirrored", 82, 13, 0⟩,
  ⟨"Room, Triple", 82, 14, 0⟩,
  ⟨"Antenna, Small", 83, 0, 0⟩,
  ⟨"Antenna, Satellite", 83, 1, 0⟩,
  ⟨"Brace", 83, 2, 0⟩,
  ⟨"Brace, Large", 83, 3, 0⟩,
  ⟨"Brace, Tunnel", 83, 4, 0⟩,
  ⟨"Column", 83, 5, 0⟩,
  ⟨"Cover", 83, 6, 0⟩,
  ⟨"Cover, Crenellation", 83, 7, 0⟩,
  ⟨"Cover, Glass", 83, 8, 0⟩,
  ⟨"Railing, Small", 83, 9, 0⟩,
  ⟨"Railing, Medium", 83, 10, 0⟩,
  ⟨"Railing, Large", 83, 11, 0⟩,
  ⟨"Teleporter Frame", 83, 12, 0⟩,
  ⟨"Strut", 83, 13, 0⟩
]

def OBJECT_TYPE_INFO_7 : List TypeEntry := [
  ⟨"Large Walkway Cover", 83, 14, 0⟩,
  ⟨"Race Checkpoint Arch", 83, 15, 0⟩,
  ⟨"Race Checkpoint Arch, Large", 83, 16, 0⟩,
  ⟨"Glass Panel, 1x1", 83, 17, 0⟩,
  ⟨"Glass Panel, 2x1", 83, 18, 0⟩,
  ⟨"Glass Panel, 2x2", 83, 19, 0⟩,
  ⟨"Glass Panel, 3x2", 83, 20, 0⟩,
  ⟨"Glass Panel, 3x3", 83, 21, 0⟩,
  ⟨"Trim, Small", 83, 22, 0⟩,
  ⟨"Trim, Medium", 83, 23, 0⟩,
  ⟨"Trim, Large", 83, 24, 0⟩,
  ⟨"Door", 84, 0, 0⟩,
  ⟨"Door, Double", 84, 1, 0⟩,
  ⟨"Window", 84, 2, 0⟩,
  ⟨"Window, No Glass", 84, 3, 0⟩,
  ⟨"Window, Double", 84, 4, 0⟩,
  ⟨"Window, Double, No Glass", 84, 5, 0⟩,
  ⟨"Wall", 84, 6, 0⟩,
  ⟨"Wall, Double", 84, 7, 0⟩,
  ⟨"Wall, Corner", 84, 8, 0⟩,
  ⟨"Wall, Corner, No Glass", 84, 9, 0⟩,
  ⟨"Wall, Curved", 84, 10, 0⟩,
  ⟨"Wall, Coliseum", 84, 11, 0⟩,
  ⟨"Window, Coliseum", 84, 12, 0⟩,
  ⟨"Window, Coliseum, Small", 84, 13, 0⟩,
  ⟨"Tunnel, Short", 84, 14, 0⟩,
  ⟨"Tunnel, Long", 84, 15, 0⟩,
  ⟨"Bank, 1X1", 85, 0, 0⟩,
  ⟨"Bank, 1X2", 85, 1, 0⟩,
  ⟨"Bank, 2X2", 85, 2, 0⟩,
  ⟨"Ramp, 1X2", 85, 3, 0⟩,
  ⟨"Ramp, 1X2, Shallow", 85, 4, 0⟩,
  ⟨"Ramp, 2X2", 85, 5, 0⟩,
  ⟨"Ramp, 2X2, Steep", 85, 6, 0⟩,
  ⟨"Ramp, Circular, Small", 85, 7, 0⟩,
  ⟨"Ramp, Circular, Small, Mirrored", 85, 8, 0⟩,
  ⟨"Ramp, Circular, Large", 85, 9, 0⟩,
  ⟨"Ramp, Circular, Large, Mirrored", 85, 10, 0⟩,
  ⟨"Ramp, Bridge, Small", 85, 11, 0⟩,
  ⟨"Ramp, Bridge, Medium", 85, 12, 0⟩,
  ⟨"Ramp, Bridge, Large", 85, 13, 0⟩,
  ⟨"Ramp, XL", 85, 14, 0⟩,
  ⟨"Ramp, Stunt", 85, 15, 0⟩,
  ⟨"Grid", 86, 0, 0⟩
]

/-- The OBJECT_TYPE_INFO registry of src/memory.py, transcribed row for row
in source order (split into chunks only to keep elaboration linear). -/
def OBJECT_TYPE_INFO : List TypeEntry :=
  OBJECT_TYPE_INFO_1 ++ OBJECT_TYPE_INFO_2 ++ OBJECT_TYPE_INFO_3 ++ OBJECT_TYPE_INFO_4 ++ OBJECT_TYPE_INFO_5 ++ OBJECT_TYPE_INFO_6 ++ OBJECT_TYPE_INFO_7


/-- Entry stride in bytes (0x4C). -/
def ENTRY_STRIDE : Nat := 76

def OFF_F32_A : Nat := 0x2A
def OFF_U16_FFFF : Nat := 0x2E
def OFF_U16_TYPECONST : Nat := 0x30
def OFF_PRE_FLAGS_BYTE : Nat := 0x3B
def OFF_OBJECT_FLAGS : Nat := 0x3C
def OFF_CAN_DESPAWN : Nat := 0x3D
def OFF_TEAM_INDEX : Nat := 0x3E
def OFF_SPAWN_TIME : Nat := 0x3F
def OFF_OBJECT_COLOR : Nat := 0x40
def OFF_SPAWN_SEQ : Nat := 0x41
def OFF_TIMER_USER : Nat := 0x42
def OFF_SPAWN_CHAN : Nat := 0x43
def OFF_LABEL_1 : Nat := 0x44
def OFF_LABEL_2 : Nat := 0x45
def OFF_LABEL_3 : Nat := 0x46
def OFF_LABEL_4 : Nat := 0x47
def OFF_TELE_CHAN : Nat := 0x48
def OFF_PASS_FLAGS : Nat := 0x49
def OFF_TAIL_FLAG : Nat := ENTRY_STRIDE - 2

def maxObjectCount : Nat := 650

def DEFAULT_OBJECT_TYPE : String := "Block, 5x5, Flat"

def LABEL_NONE_ID : String := "__NONE__"

/-- Python str.strip as used on label and template names, implemented on the
character list so that it evaluates inside the kernel (the names involved are
ASCII). -/
def strTrim (s : String) : String :=
  ⟨((s.data.dropWhile Char.isWhitespace).reverse.dropWhile Char.isWhitespace).reverse⟩

/-- ASCII lower casing of one character. -/
def charLower (c : Char) : Char :=
  if 'A' ≤ c ∧ c ≤ 'Z' then Char.ofNat (c.toNat + 32) else c

/-- Python str.lower as used for the case-insensitive label comparison,
implemented on the character list (the names involved are ASCII). -/
def strLower (s : String) : String := ⟨s.data.map charLower⟩

/-- Python _get_type_info: dict lookup of the stripped name in
OBJECT_TYPE_INFO (keys are unique, so first match over the table equals the
dict lookup); the pre byte of the result is masked. -/
def getTypeInfo (name : String) : Option (Nat × Nat × Nat) :=
  (OBJECT_TYPE_INFO.find? (fun e => e.name == strTrim name)).map
    (fun e => (e.top, e.sub, e.pre % 256))

/-- Python TYPEKEY_TO_NAME dict lookup: keys are the masked triples; built by
iteration with later rows overwriting earlier ones, hence first match over the
reversed table. -/
def typekeyToName (t s p : Nat) : Option String :=
  (OBJECT_TYPE_INFO.reverse.find? (fun e =>
    e.top % 256 == t % 256 && e.sub % 256 == s % 256 && e.pre % 256 == p % 256)).map
    (fun e => e.name)

/-- Python TYPEKEY_TO_NAME_LOOSE dict lookup on the (top, sub) pair. -/
def typekeyToNameLoose (t s : Nat) : Option String :=
  (OBJECT_TYPE_INFO.reverse.find? (fun e =>
    e.top % 256 == t % 256 && e.sub % 256 == s % 256)).map (fun e => e.name)

/-- The decode-side name resolution in _apply_entry_to_object: exact triple
lookup, then the loose pair lookup; the Python truthiness tests treat a
missing or empty name as unresolved. -/
def decodeTypeName (top sub pre : Nat) : Option String :=
  let n1 := (typekeyToName top sub pre).getD ""
  let n2 := if n1 = "" then (typekeyToNameLoose top sub).getD "" else n1
  if n2 = "" then none else some n2

/-- Python _clamp_u8. -/
def clampU8 (v : Int) : Nat :=
  if v < 0 then 0 else if v > 255 then 255 else v.toNat

/-- Python _to_u8_twos_complement and _s8_to_u8 (v & 0xFF on a Python int). -/
def toU8TwosComplement (v : Int) : Nat := (v % 256).toNat

/-- Python _clamp_s8_timer. -/
def clampS8Timer (v : Int) : Int :=
  if v < -127 then -127 else if v > 127 then 127 else v

/-- The signed byte interpretation used on decode (the _s8 helpers). -/
def s8FromByte (b : Nat) : Int :=
  if b ≥ 128 then (b : Int) - 256 else (b : Int)

/-- Python EMPTY_SLOT_BYTES, the canonical 76-byte empty-slot template decoded
from EMPTY_SLOT_HEX. -/
def EMPTY_SLOT_BYTES : List Nat :=
  [255, 255, 255, 255, 255, 255,
   0, 0, 0, 0, 0, 0, 0, 0, 0, 0, 0, 0, 0, 0, 0, 0,
   0, 0, 0, 0, 0, 0, 0, 0, 0, 0, 0, 0, 0, 0, 0, 0,
   0, 0, 0, 0, 0, 0, 0, 0,
   255, 255,
   0, 0, 0, 0, 0, 0, 0, 0, 0, 0, 0, 0, 0, 0,
   8, 0, 255, 0, 0, 0,
   255, 255, 255, 255,
   0, 0, 0, 0]

/-- Python _set_tail_flag: the two-byte little-endian chain flag at offset
0x4A becomes 0x0001 when more entries follow, else 0x0000. -/
def setTailFlag (b : List Nat) (isMoreAfter : Bool) : List Nat :=
  (b.set OFF_TAIL_FLAG (if isMoreAfter then 1 else 0)).set (OFF_TAIL_FLAG + 1) 0

/-- Python _entry_is_empty: true when the first six bytes are all 0xFF (or the
buffer is shorter than six bytes). -/
def entryIsEmpty (b : List Nat) : Bool :=
  if b.length < 6 then true
  else
    b.getD 0 0 == 255 && b.getD 1 0 == 255 && b.getD 2 0 == 255 &&
    b.getD 3 0 == 255 && b.getD 4 0 == 255 && b.getD 5 0 == 255

/-- Python _entry_has_more_after: low byte of the chain flag equals 0x01. -/
def entryHasMoreAfter (b : List Nat) : Bool :=
  if b.length < ENTRY_STRIDE then false else b.getD OFF_TAIL_FLAG 0 == 1

/-- The u16 chain flag at offset 0x4A as the spec describes it. -/
def chainFlagU16 (b : List Nat) : Nat :=
  b.getD OFF_TAIL_FLAG 0 + 256 * b.getD (OFF_TAIL_FLAG + 1) 0

/-- One row of the scene label table (H2AForgeLabelItem). -/
structure LabelItem where
  name : String
  index : Nat
  deriving DecidableEq

/-- Python _find_label_index_by_name: 0xFF for an empty or sentinel name, else
the masked index of the first table row whose stripped name matches case
insensitively, else 0xFF. -/
def findLabelIndexByName (tbl : List LabelItem) (labelName : String) : Nat :=
  let nm := strTrim labelName
  if nm = "" || nm == LABEL_NONE_ID then 255
  else
    match tbl.find? (fun it => strTrim it.name != "" && strLower (strTrim it.name) == strLower nm) with
    | some it => it.index % 256
    | none => 255

/-- Python _find_label_name_by_index: empty string for index 0xFF, else the
stripped name of the first table row with the same masked index, else the
empty string. -/
def findLabelNameByIndex (tbl : List LabelItem) (idx : Nat) : String :=
  if idx % 256 = 255 then ""
  else
    match tbl.find? (fun it => it.index % 256 == idx % 256) with
    | some it => strTrim it.name
    | none => ""

/-- The editor-side record: the h2a_forge property group of an object plus the
unmapped-triple side channel written by mark_unmapped. Enum properties keep
their string values; object_color and teleporter_channel hold the u8 value of
the corresponding enum identifier string. -/
structure ForgeRecord where
  template_name : String
  pre_flags_byte : Nat
  unmapped : Option (Nat × Nat × Nat)
  physics_mode : String
  game_specific : String
  symmetry : String
  place_at_start : String
  can_despawn : Nat
  team : Nat
  spawn_time : Nat
  object_color : Nat
  spawn_sequence : Int
  timer_user_data : Int
  spawn_channel : Nat
  label_name_1 : String
  label_name_2 : String
  label_name_3 : String
  label_name_4 : String
  teleporter_channel : Nat
  pass_players : String
  pass_land : String
  pass_heavy : String
  pass_flying : String
  pass_projectiles : String

/-- Python pack_object_flags over the four enum strings. The property system
only produces the listed identifiers, and the code folds every other physics
value to PHASED and every other symmetry value to BOTH. -/
def packFlagsOf (phys gs sym pas : String) : Nat :=
  let physBits : Nat := if phys = "NORMAL" then 0 else if phys = "FIXED" then 1 else 3
  let symBits : Nat :=
    if sym = "NONE" then 0
    else if sym = "SYMMETRIC" then 1
    else if sym = "ASYMMETRIC" then 2
    else 3
  let gsBit : Nat := if gs = "1" then 1 else 0
  let pasBit : Nat := if pas = "1" then 1 else 0
  let notPas : Nat := if pasBit = 0 then 1 else 0
  ((physBits &&& 3) <<< 6 ||| (gsBit &&& 1) <<< 5 ||| (symBits &&& 3) <<< 2 |||
    (notPas &&& 1) <<< 1) % 256

def packObjectFlags (r : ForgeRecord) : Nat :=
  packFlagsOf r.physics_mode r.game_specific r.symmetry r.place_at_start

/-- Python pack_passability_flags over the five allow/block enum strings. -/
def packPassOf (pl la he fl pr : String) : Nat :=
  ((if pl = "BLOCK" then 0x01 else 0) |||
   (if la = "ALLOW" then 0x02 else 0) |||
   (if he = "ALLOW" then 0x04 else 0) |||
   (if fl = "ALLOW" then 0x08 else 0) |||
   (if pr = "ALLOW" then 0x10 else 0)) % 256

def packPassabilityFlags (r : ForgeRecord) : Nat :=
  packPassOf r.pass_players r.pass_land r.pass_heavy r.pass_flying r.pass_projectiles

def COSMIC_DEFENDERS_TEAM_VALUE : Nat := 0
def COSMIC_FORCE_DEFENDERS_TEAM : Bool := true
def COSMIC_RED_COLOR_VALUE : Nat := 1

/-- Python is_red_team_cosmic: the parsed u8 value of the object color enum
equals COSMIC_RED_COLOR_VALUE. -/
def isRedTeamCosmic (r : ForgeRecord) : Bool :=
  r.object_color == COSMIC_RED_COLOR_VALUE

/-- Python resolve_team_byte. -/
def resolveTeamByte (r : ForgeRecord) : Nat :=
  if COSMIC_FORCE_DEFENDERS_TEAM && isRedTeamCosmic r then COSMIC_DEFENDERS_TEAM_VALUE
  else r.team

/-- Python get_export_type_triple: the unmapped side channel wins; otherwise
the registry pair for the template name combined with the pre byte stored on
the record. -/
def getExportTypeTriple (r : ForgeRecord) : Option (Nat × Nat × Nat) :=
  match r.unmapped with
  | some (t, s, p) => some (t % 256, s % 256, p % 256)
  | none =>
    match getTypeInfo r.template_name with
    | none => none
    | some (top, sub, _) => some (top % 256, sub % 256, r.pre_flags_byte % 256)

/-- Python _init_entry_for_type: the empty template with the type triple, the
populated sentinel, the f32 constant 1.0 (bytes 00 00 80 3F), the u16 0xFFFF
and a cleared tail flag. -/
def initEntryForType (top sub pre : Nat) : List Nat :=
  let b := EMPTY_SLOT_BYTES
  let b := b.set 0 (top % 256)
  let b := b.set 1 0
  let b := (((b.set 2 255).set 3 255).set 4 255).set 5 255
  let b := (((b.set OFF_F32_A 0).set (OFF_F32_A + 1) 0).set (OFF_F32_A + 2) 128).set
    (OFF_F32_A + 3) 63
  let b := (b.set OFF_U16_FFFF 255).set (OFF_U16_FFFF + 1) 255
  let b := (b.set OFF_U16_TYPECONST (sub % 256)).set (OFF_U16_TYPECONST + 1) 0
  let b := b.set OFF_PRE_FLAGS_BYTE (pre % 256)
  setTailFlag b false

/-- Python build_entry_bytes restricted to the byte buffer: the three raw
float triplets written at 0x06, 0x12 and 0x1E are modeled separately by
encodeFloats, so the buffer keeps the template bytes in that region. Every
other write of the source function appears here in source order. -/
def buildEntryBody (tbl : List LabelItem) (r : ForgeRecord) (top sub pre : Nat) : List Nat :=
    let b := initEntryForType top sub pre
    let b := b.set OFF_PRE_FLAGS_BYTE (clampU8 ((r.pre_flags_byte % 256 : Nat) : Int))
    let b := b.set OFF_OBJECT_FLAGS (clampU8 (packObjectFlags r))
    let b := b.set OFF_CAN_DESPAWN (clampU8 r.can_despawn)
    let b := b.set OFF_TEAM_INDEX (clampU8 (resolveTeamByte r))
    let b := b.set OFF_SPAWN_TIME (clampU8 r.spawn_time)
    let b := b.set OFF_OBJECT_COLOR (clampU8 r.object_color)
    let b := b.set OFF_SPAWN_SEQ (toU8TwosComplement r.spawn_sequence)
    let b := b.set OFF_TIMER_USER (clampU8 (toU8TwosComplement (clampS8Timer r.timer_user_data)))
    let b := b.set OFF_SPAWN_CHAN (clampU8 r.spawn_channel)
    let b := b.set OFF_LABEL_1 (clampU8 (findLabelIndexByName tbl (strTrim r.label_name_1)))
    let b := b.set OFF_LABEL_2 (clampU8 (findLabelIndexByName tbl (strTrim r.label_name_2)))
    let b := b.set OFF_LABEL_3 (clampU8 (findLabelIndexByName tbl (strTrim r.label_name_3)))
    let b := b.set OFF_LABEL_4 (clampU8 (findLabelIndexByName tbl (strTrim r.label_name_4)))
    let b := b.set OFF_TELE_CHAN (clampU8 r.teleporter_channel)
    let b := b.set OFF_PASS_FLAGS (clampU8 (packPassabilityFlags r))
    b

def buildEntryScalarBytes (tbl : List LabelItem) (r : ForgeRecord) : Option (List Nat) :=
  match getExportTypeTriple r with
  | none => none
  | some (top, sub, pre) => some (buildEntryBody tbl r top sub pre)

def decodePhysicsMode (flags : Nat) : String :=
  let physBits := (flags >>> 6) &&& 3
  if physBits = 0 then "NORMAL" else if physBits = 1 then "FIXED" else "PHASED"

def decodeGameSpecific (flags : Nat) : String :=
  if (flags >>> 5) &&& 1 ≠ 0 then "1" else "0"

def decodeSymmetry (flags : Nat) : String :=
  let symBits := (flags >>> 2) &&& 3
  if symBits = 0 then "NONE"
  else if symBits = 1 then "SYMMETRIC"
  else if symBits = 2 then "ASYMMETRIC"
  else "BOTH"

def decodePlaceAtStart (flags : Nat) : String :=
  if (flags >>> 1) &&& 1 = 0 then "1" else "0"

def decodePassPlayers (b : Nat) : String := if b &&& 0x01 ≠ 0 then "BLOCK" else "ALLOW"
def decodePassLand (b : Nat) : String := if b &&& 0x02 ≠ 0 then "ALLOW" else "BLOCK"
def decodePassHeavy (b : Nat) : String := if b &&& 0x04 ≠ 0 then "ALLOW" else "BLOCK"
def decodePassFlying (b : Nat) : String := if b &&& 0x08 ≠ 0 then "ALLOW" else "BLOCK"
def decodePassProjectiles (b : Nat) : String := if b &&& 0x10 ≠ 0 then "ALLOW" else "BLOCK"

/-- Python _apply_entry_to_object restricted to the scalar fields it assigns
onto the record; the orientation matrix is modeled by decodeTransform. A read
past the end of the buffer yields 0 exactly as the _u8 helper does. -/
def decodeScalars (tbl : List LabelItem) (e : List Nat) : ForgeRecord :=
  let u8 : Nat → Nat := fun off => e.getD off 0
  let top := u8 0
  let sub := u8 OFF_U16_TYPECONST
  let pre := u8 OFF_PRE_FLAGS_BYTE
  let nameOpt := decodeTypeName top sub pre
  let flags := u8 OFF_OBJECT_FLAGS
  let teamU := u8 OFF_TEAM_INDEX
  let colU := u8 OFF_OBJECT_COLOR
  let teleU := u8 OFF_TELE_CHAN
  let passB := u8 OFF_PASS_FLAGS
  { template_name := nameOpt.getD DEFAULT_OBJECT_TYPE
    pre_flags_byte := pre % 256
    unmapped :=
      match nameOpt with
      | some _ => none
      | none => some (top % 256, sub % 256, pre % 256)
    physics_mode := decodePhysicsMode flags
    game_specific := decodeGameSpecific flags
    symmetry := decodeSymmetry flags
    place_at_start := decodePlaceAtStart flags
    can_despawn := u8 OFF_CAN_DESPAWN
    team := if teamU > 8 then 8 else teamU
    spawn_time := u8 OFF_SPAWN_TIME
    object_color := if colU = 255 then 255 else if colU ≤ 7 then colU else 255
    spawn_sequence := s8FromByte (u8 OFF_SPAWN_SEQ)
    timer_user_data := s8FromByte (u8 OFF_TIMER_USER)
    spawn_channel := u8 OFF_SPAWN_CHAN
    label_name_1 := findLabelNameByIndex tbl (u8 OFF_LABEL_1)
    label_name_2 := findLabelNameByIndex tbl (u8 OFF_LABEL_2)
    label_name_3 := findLabelNameByIndex tbl (u8 OFF_LABEL_3)
    label_name_4 := findLabelNameByIndex tbl (u8 OFF_LABEL_4)
    teleporter_channel := if teleU = 255 then 255 else if teleU ≤ 25 then teleU else 255
    pass_players := decodePassPlayers passB
    pass_land := decodePassLand passB
    pass_heavy := decodePassHeavy passB
    pass_flying := decodePassFlying passB
    pass_projectiles := decodePassProjectiles passB }

/-- Python _read_all_entries_from_memory: the provider is a total function
from slot index to the bytes obtained for that slot, and the break on a short
read is the stride-length test. The first argument of the recursion is the
current slot, the second the number of slots left below the limit. -/
def readEntriesFrom (read : Nat → List Nat) : Nat → Nat → List (Nat × List Nat)
  | _, 0 => []
  | i, fuel + 1 =>
    let raw := read i
    if raw.length ≠ ENTRY_STRIDE then []
    else if entryIsEmpty raw then
      if i = 0 then []
      else if entryHasMoreAfter raw then readEntriesFrom read (i + 1) fuel
      else []
    else
      (i, raw) :: (if entryHasMoreAfter raw then readEntriesFrom read (i + 1) fuel else [])

def readAllEntries (read : Nat → List Nat) (limit : Nat) : List (Nat × List Nat) :=
  readEntriesFrom read 0 limit

/-- The write loop of H2AForgeExportMemory.execute for one slot: records get
their tail flag keyed to whether more records follow, remaining slots get the
empty template with a cleared tail flag. -/
def exportSlotImage (entries : List (List Nat)) (i : Nat) : List Nat :=
  if i < entries.length then
    setTailFlag (entries.getD i []) (decide (i < entries.length - 1))
  else
    setTailFlag EMPTY_SLOT_BYTES false

/-- The full array image written by the export loop: all maxObjectCount slots
in order. -/
def exportImage (entries : List (List Nat)) : List (List Nat) :=
  (List.range maxObjectCount).map (exportSlotImage entries)

/-- Python recursive_330x: the loop body adds scale // 33 + scale // 228
(Python floor division) to the running value, once per iteration. -/
def recursive_330x (i : Nat) (scale : Int) : Int :=
  match i with
  | 0 => scale
  | n + 1 =>
    let s := recursive_330x n scale
    s + (s.fdiv 33 + s.fdiv 228)

/-- Python spawnSeqToScale. Decimal literals are modeled as exact rationals;
every path used by the proved claims is exact in both models. -/
def spawnSeqToScale (spawnSequence : Int) (convention : String) (team : String) : ℚ :=
  let onePercentSeq : Int := if convention = "330X" then -20 else -10
  if spawnSequence = onePercentSeq then 1 / 100
  else if convention = "1X" then 1
  else if convention = "33X" then
    let scale : ℚ := (1 / 10) * (spawnSequence : ℚ)
    let scale :=
      if spawnSequence < -10 then
        let scale := scale * (-2)
        if spawnSequence > -81 then scale + 8
        else if spawnSequence < -80 then 2 * scale - 8
        else scale
      else scale
    scale + 1
  else if convention = "71X" then
    let scale : ℚ := (1 / 10) * (spawnSequence : ℚ)
    let scale :=
      if spawnSequence < -10 then
        let scale := scale * (-4)
        if spawnSequence > -81 then scale + 6
        else if spawnSequence < -80 then 4 * scale - 90
        else scale
      else scale
    scale + 1
  else if convention = "47X" then
    let lthn10 := spawnSequence < -10
    let gthn71 := spawnSequence > -71
    let gthn41 := spawnSequence > -41
    let scale : Int := spawnSequence
    let scale :=
      if lthn10 then
        let scale := 2 * (scale + 101)
        if gthn71 then scale * (if gthn41 then 3 else 2) else scale
      else scale
    let scale := 10 * scale + 100
    let scale :=
      if lthn10 then
        let scale := scale + 1000
        if gthn71 then scale - (if gthn41 then 1800 else 600) else scale
      else scale
    (scale : ℚ) * (1 / 100)
  else if convention = "330X" then
    let scale : Int := 100
    let i : Int := spawnSequence
    let si :=
      if spawnSequence < 0 then
        let i := i * 5
        let scale := scale + i
        if spawnSequence ≤ -20 then
          let i := spawnSequence + 201
          if spawnSequence = -20 then ((1 : Int), i) else (scale, i)
        else (scale, i)
      else (scale, i)
    let scale := si.1
    let i := si.2
    let scale :=
      if spawnSequence < -20 ∨ spawnSequence > 0 then
        if team = "RED" then recursive_330x i.toNat 32732 else recursive_330x i.toNat 100
      else scale
    (scale : ℚ) * (1 / 100)
  else 1

/-- A mathutils vector, modeled over the reals. -/
structure Vec3 where
  x : ℝ
  y : ℝ
  z : ℝ

def dot (a b : Vec3) : ℝ := a.x * b.x + a.y * b.y + a.z * b.z

def cross (a b : Vec3) : Vec3 :=
  ⟨a.y * b.z - a.z * b.y, a.z * b.x - a.x * b.z, a.x * b.y - a.y * b.x⟩

def lengthSq (v : Vec3) : ℝ := dot v v

noncomputable def vlen (v : Vec3) : ℝ := Real.sqrt (lengthSq v)

/-- Vector normalization; mathutils leaves the zero vector unchanged, which
matches division by zero in the reals. -/
noncomputable def normalize (v : Vec3) : Vec3 :=
  ⟨v.x / vlen v, v.y / vlen v, v.z / vlen v⟩

/-- Forward repair in _apply_entry_to_object: a near-zero forward becomes the
world +X axis, otherwise forward is normalized. -/
noncomputable def repairX (fwd : Vec3) : Vec3 :=
  if vlen fwd < 1e-8 then ⟨1, 0, 0⟩ else normalize fwd

/-- Up repair: a near-zero up becomes the world +Z axis, otherwise up is
normalized. -/
noncomputable def repairZ (up : Vec3) : Vec3 :=
  if vlen up < 1e-8 then ⟨0, 0, 1⟩ else normalize up

/-- The alternate up candidate used on a degenerate cross product: world +Y
unless nearly parallel to x, else world +Z. -/
noncomputable def altUp (x : Vec3) : Vec3 :=
  if |dot x ⟨0, 1, 0⟩| < 0.99 then ⟨0, 1, 0⟩ else ⟨0, 0, 1⟩

/-- The y axis before its final normalization: cross of the (repaired) up with
x, recomputed from the normalized alternate up when degenerate. -/
noncomputable def yRaw (x z : Vec3) : Vec3 :=
  let y := cross z x
  if vlen y < 1e-8 then cross (normalize (altUp x)) x else y

/-- The final y axis: the world +Y fallback of the code on a still-degenerate
cross product, otherwise the normalized cross product. -/
noncomputable def yFinal (x z : Vec3) : Vec3 :=
  let y := yRaw x z
  if vlen y < 1e-8 then ⟨0, 1, 0⟩ else normalize y

/-- The final z axis: normalize (cross x y) with a +Z fallback on degeneracy.
The source reassigns z inside the degenerate-y branch, but that value is dead
because z is unconditionally recomputed from x and y here. -/
noncomputable def zFinal (x y : Vec3) : Vec3 :=
  let z := cross x y
  if vlen z < 1e-8 then ⟨0, 0, 1⟩ else normalize z

/-- The orientation basis produced by _apply_entry_to_object from the stored
forward and up vectors (the columns x, y, z of the world matrix). -/
noncomputable def decodeBasis (fwd up : Vec3) : Vec3 × Vec3 × Vec3 :=
  let x := repairX fwd
  let y := yFinal x (repairZ up)
  (x, y, zFinal x y)

/-- World matrix state of a Blender object: basis columns and translation. -/
structure ObjTransform where
  colX : Vec3
  colY : Vec3
  colZ : Vec3
  pos : Vec3

/-- The float fields of an entry. -/
structure EntryFloats where
  pos : Vec3
  fwd : Vec3
  up : Vec3

/-- The float part of build_entry_bytes: forward and up are the normalized
first and third basis columns of the world matrix, position the translation. -/
noncomputable def encodeFloats (t : ObjTransform) : EntryFloats :=
  ⟨t.pos, normalize t.colX, normalize t.colZ⟩

/-- The transform part of _apply_entry_to_object: the repaired basis becomes
the matrix columns and the stored position the translation. -/
noncomputable def decodeTransform (f : EntryFloats) : ObjTransform :=
  ⟨(decodeBasis f.fwd f.up).1, (decodeBasis f.fwd f.up).2.1,
    (decodeBasis f.fwd f.up).2.2, f.pos⟩

/-- The well-formedness envelope for an editor-side record: enum fields take
the identifiers the property definitions allow, numeric fields sit in the
ranges the property definitions enforce, the template name is a registry key
spelled exactly as stored, no unmapped triple is attached, and every label
name survives the name-to-index-to-name trip through the given table. -/
def WellFormedRecord (tbl : List LabelItem) (r : ForgeRecord) : Prop :=
  r.unmapped = none ∧
  (OBJECT_TYPE_INFO.find? (fun e => e.name == strTrim r.template_name)).isSome ∧
  strTrim r.template_name = r.template_name ∧
  r.pre_flags_byte ≤ 255 ∧
  (r.physics_mode = "NORMAL" ∨ r.physics_mode = "FIXED" ∨ r.physics_mode = "PHASED") ∧
  (r.game_specific = "0" ∨ r.game_specific = "1") ∧
  (r.symmetry = "NONE" ∨ r.symmetry = "SYMMETRIC" ∨ r.symmetry = "ASYMMETRIC" ∨
    r.symmetry = "BOTH") ∧
  (r.place_at_start = "0" ∨ r.place_at_start = "1") ∧
  r.can_despawn ≤ 255 ∧
  r.team ≤ 8 ∧
  r.spawn_time ≤ 255 ∧
  (r.object_color ≤ 7 ∨ r.object_color = 255) ∧
  (-128 ≤ r.spawn_sequence ∧ r.spawn_sequence ≤ 127) ∧
  (-127 ≤ r.timer_user_data ∧ r.timer_user_data ≤ 127) ∧
  r.spawn_channel ≤ 255 ∧
  (r.teleporter_channel ≤ 25 ∨ r.teleporter_channel = 255) ∧
  findLabelNameByIndex tbl (findLabelIndexByName tbl (strTrim r.label_name_1)) = r.label_name_1 ∧
  findLabelNameByIndex tbl (findLabelIndexByName tbl (strTrim r.label_name_2)) = r.label_name_2 ∧
  findLabelNameByIndex tbl (findLabelIndexByName tbl (strTrim r.label_name_3)) = r.label_name_3 ∧
  findLabelNameByIndex tbl (findLabelIndexByName tbl (strTrim r.label_name_4)) = r.label_name_4 ∧
  (r.pass_players = "ALLOW" ∨ r.pass_players = "BLOCK") ∧
  (r.pass_land = "ALLOW" ∨ r.pass_land = "BLOCK") ∧
  (r.pass_heavy = "ALLOW" ∨ r.pass_heavy = "BLOCK") ∧
  (r.pass_flying = "ALLOW" ∨ r.pass_flying = "BLOCK") ∧
  (r.pass_projectiles = "ALLOW" ∨ r.pass_projectiles = "BLOCK")

/-- Decidability of the well-formedness envelope, for evaluating it on
concrete records. -/
instance (tbl : List LabelItem) (r : ForgeRecord) : Decidable (WellFormedRecord tbl r) := by
  unfold WellFormedRecord
  exact inferInstance

/-- Strict ascent check for a list of keys. -/
def strictAscendB : List Nat → Bool
  | [] => true
  | [_] => true
  | a :: b :: t => a < b && strictAscendB (b :: t)

/-- The scan rules as the amended claim states them: an empty slot 0 yields
the empty result; an empty entry at a later slot is skipped when its own chain
flag (low byte 0x01) is set and stops the scan otherwise; a non-empty entry is
collected and the scan stops right after it exactly when its own chain flag is
clear. -/
def scanClaimOwn (read : Nat → List Nat) : Nat → Nat → List (Nat × List Nat)
  | _, 0 => []
  | i, fuel + 1 =>
    let raw := read i
    if entryIsEmpty raw then
      if i = 0 then []
      else if entryHasMoreAfter raw then scanClaimOwn read (i + 1) fuel
      else []
    else
      (i, raw) :: (if entryHasMoreAfter raw then scanClaimOwn read (i + 1) fuel else [])

/-- The scan rules exactly as claim C3 states them: an empty entry at slot
i > 0 stops the scan when the chain flag of the previous entry was not set and
is skipped otherwise, and the chain flag is read as the u16 at offset 0x4A. -/
def scanClaimAsStated (read : Nat → List Nat) : Nat → Nat → List (Nat × List Nat)
  | _, 0 => []
  | i, fuel + 1 =>
    let raw := read i
    if entryIsEmpty raw then
      if i = 0 then []
      else if chainFlagU16 (read (i - 1)) ≠ 0 then scanClaimAsStated read (i + 1) fuel
      else []
    else
      (i, raw) :: (if chainFlagU16 raw ≠ 0 then scanClaimAsStated read (i + 1) fuel else [])

/-- Memory image refuting claim C3 as stated: slot 0 is live with its chain
flag set, slot 1 is empty with a clear chain flag, slot 2 holds non-empty
stale bytes. -/
def cexRead : Nat → List Nat := fun i =>
  if i = 0 then List.replicate 74 0 ++ [1, 0]
  else if i = 1 then List.replicate 6 255 ++ List.replicate 70 0
  else List.replicate 76 0

/-- A plain well-formed record used by witnesses: a Magnum with neutral
scalar values and no labels. -/
def rRoundTrip : ForgeRecord :=
  { template_name := "Magnum", pre_flags_byte := 0, unmapped := none,
    physics_mode := "NORMAL", game_specific := "0", symmetry := "NONE",
    place_at_start := "1", can_despawn := 0, team := 0, spawn_time := 0,
    object_color := 0, spawn_sequence := 0, timer_user_data := 0,
    spawn_channel := 0, label_name_1 := "", label_name_2 := "",
    label_name_3 := "", label_name_4 := "", teleporter_channel := 255,
    pass_players := "ALLOW", pass_land := "ALLOW", pass_heavy := "ALLOW",
    pass_flying := "ALLOW", pass_projectiles := "ALLOW" }

/-- A well-formed record with object color 1 and team 2, refuting the original
claim C1: the exported team byte is forced to 0. -/
def rColorOneTeamTwo : ForgeRecord :=
  { rRoundTrip with object_color := 1, team := 2 }

/-- A record with spawn sequence -128 (the property minimum), refuting the
claimed [-127, 127] clamp of the spawn sequence on encode. -/
def rSeqNegOneTwoEight : ForgeRecord :=
  { rRoundTrip with spawn_sequence := -128 }

/-- A record with object color 1 and a nonzero team, for claim C10. -/
def rCosmicRed : ForgeRecord :=
  { rRoundTrip with object_color := 1, team := 2 }

/-- Three concrete 76-byte records used by the export witness. -/
def entries3 : List (List Nat) :=
  [List.replicate 76 1, List.replicate 76 2, List.replicate 76 3]

/-- A 76-byte entry whose top id 0xF0 matches no registry row. -/
def eUnknownTriple : List Nat := 240 :: List.replicate 75 0

/-- The identity world transform used by the round-trip witness. -/
noncomputable def idTransform : ObjTransform :=
  ⟨⟨1, 0, 0⟩, ⟨0, 1, 0⟩, ⟨0, 0, 1⟩, ⟨0, 0, 0⟩⟩

/-- A one-row label table used by the label-translation witness. -/
def tblScale : List LabelItem := [⟨"Scale", 3⟩]

/-- Helper: getD after set at the same position. -/
theorem getD_set_self (l : List Nat) (i v d : Nat) (h : i < l.length) :
    (l.set i v).getD i d = v := by
  rw [List.getD_eq_getElem?_getD, List.getElem?_set_eq_of_lt v h]
  rfl

/-- Helper: getD after set at a different position. -/
theorem getD_set_ne (l : List Nat) (i j v d : Nat) (h : i ≠ j) :
    (l.set i v).getD j d = l.getD j d := by
  rw [List.getD_eq_getElem?_getD, List.getElem?_set_ne h, ← List.getD_eq_getElem?_getD]

/-- Helper: find? returns the unique element satisfying the predicate. -/
theorem find?_eq_some_of_unique {α : Type} (l : List α) (q : α → Bool) (e : α)
    (he : e ∈ l) (hqe : q e = true) (huniq : ∀ a ∈ l, q a = true → a = e) :
    l.find? q = some e := by
  cases hfind : l.find? q with
  | none => exact absurd hqe (by simpa using List.find?_eq_none.mp hfind e he)
  | some a =>
    exact congrArg some (huniq a (List.mem_of_find?_eq_some hfind) (List.find?_some hfind))

/-- A strictly ascending key list is a chain. -/
theorem chain'_of_strictAscendB : ∀ l : List Nat, strictAscendB l = true → List.Chain' (· < ·) l
  | [], _ => List.chain'_nil
  | [_], _ => List.chain'_singleton _
  | a :: b :: t, h => by
    simp only [strictAscendB, Bool.and_eq_true, decide_eq_true_eq] at h
    exact List.chain'_cons.mpr ⟨h.1, chain'_of_strictAscendB (b :: t) h.2⟩

/-- Every registry row has byte-sized ids and a nonempty name. -/
theorem registry_bounds : ∀ e ∈ OBJECT_TYPE_INFO, e.top < 256 ∧ e.sub < 256 ∧ e.pre < 256 ∧
    e.name ≠ "" := by decide

/-- The (top, sub) keys of the registry are strictly ascending in source
order. -/
theorem registry_pairKeys_ascend :
    strictAscendB (OBJECT_TYPE_INFO.map fun e => e.top * 256 + e.sub) = true := by decide

/-- Hence the (top, sub) keys are pairwise distinct. -/
theorem registry_pairs_nodup : (OBJECT_TYPE_INFO.map fun e => e.top * 256 + e.sub).Nodup := by
  have h := List.chain'_iff_pairwise.mp (chain'_of_strictAscendB _ registry_pairKeys_ascend)
  exact h.imp Nat.ne_of_lt

/-- No two registry rows share the (top, sub) pair. -/
theorem registry_pair_inj : ∀ e1 ∈ OBJECT_TYPE_INFO, ∀ e2 ∈ OBJECT_TYPE_INFO,
    e1.top = e2.top → e1.sub = e2.sub → e1 = e2 := by
  intro e1 h1 e2 h2 ht hs
  exact List.inj_on_of_nodup_map registry_pairs_nodup h1 h2 (by rw [ht, hs])

/-- Decode-side name resolution returns the row name when probed with the top
and sub ids of a registry row and an arbitrary pre byte: either the exact
lookup hits (necessarily on the same row, since pairs are unique) or the loose
pair lookup recovers the row. -/
theorem decodeTypeName_of_entry (E : TypeEntry) (hE : E ∈ OBJECT_TYPE_INFO) (p : Nat) :
    decodeTypeName E.top E.sub p = some E.name := by
  obtain ⟨htop, hsub, _, hname⟩ := registry_bounds E hE
  have hloose : typekeyToNameLoose E.top E.sub = some E.name := by
    unfold typekeyToNameLoose
    rw [find?_eq_some_of_unique _ _ E (List.mem_reverse.mpr hE)
      (by simp) (fun a ha hq => ?uniq)]
    · rfl
    case uniq =>
      obtain ⟨hatop, hasub, _, _⟩ := registry_bounds a (List.mem_reverse.mp ha)
      simp only [Bool.and_eq_true, beq_iff_eq] at hq
      exact registry_pair_inj a (List.mem_reverse.mp ha) E hE
        (by omega) (by omega)
  unfold decodeTypeName
  cases hex : typekeyToName E.top E.sub p with
  | none => simp [hloose, hname]
  | some nm =>
    have hnmE : nm = E.name := by
      unfold typekeyToName at hex
      obtain ⟨a, hfind, hanm⟩ := Option.map_eq_some'.mp hex
      have hamem := List.mem_reverse.mp (List.mem_of_find?_eq_some hfind)
      have hq := List.find?_some hfind
      obtain ⟨hatop, hasub, _, _⟩ := registry_bounds a hamem
      simp only [Bool.and_eq_true, beq_iff_eq] at hq
      have : a = E := registry_pair_inj a hamem E hE (by omega) (by omega)
      rw [← hanm, this]
    subst hnmE
    simp [hname]

/-- When neither lookup matches, decode-side name resolution fails. -/
theorem decodeTypeName_of_none (t s p : Nat) (hex : typekeyToName t s p = none)
    (hloose : typekeyToNameLoose t s = none) : decodeTypeName t s p = none := by
  unfold decodeTypeName
  simp [hex, hloose]

/-- Clamping a byte-sized Nat is the identity. -/
theorem clampU8_coe_of_le (n : Nat) (h : n ≤ 255) : clampU8 (n : Int) = n := by
  unfold clampU8
  split
  · omega
  · split <;> omega

/-- The twos-complement byte of an Int is byte sized. -/
theorem toU8TwosComplement_lt (v : Int) : toU8TwosComplement v < 256 := by
  unfold toU8TwosComplement
  omega

/-- Sign extension inverts the twos-complement byte on [-128, 127]. -/
theorem s8FromByte_toU8 (v : Int) (h1 : -128 ≤ v) (h2 : v ≤ 127) :
    s8FromByte (toU8TwosComplement v) = v := by
  unfold s8FromByte toU8TwosComplement
  split <;> omega

/-- The timer clamp is the identity on [-127, 127]. -/
theorem clampS8Timer_of_mem (v : Int) (h1 : -127 ≤ v) (h2 : v ≤ 127) :
    clampS8Timer v = v := by
  unfold clampS8Timer
  split
  · omega
  · split <;> omega

/-- Label index resolution always yields a byte value. -/
theorem findLabelIndexByName_le (tbl : List LabelItem) (nm : String) :
    findLabelIndexByName tbl nm ≤ 255 := by
  simp only [findLabelIndexByName]
  split
  · omega
  · split <;> omega

/-- All byte positions written by buildEntryBody, extracted through the write
chain. -/
theorem buildEntryBody_getD (tbl : List LabelItem) (r : ForgeRecord) (t s p : Nat) :
    (buildEntryBody tbl r t s p).length = 76 ∧
    (buildEntryBody tbl r t s p).getD 0 0 = t % 256 ∧
    (buildEntryBody tbl r t s p).getD OFF_U16_TYPECONST 0 = s % 256 ∧
    (buildEntryBody tbl r t s p).getD (OFF_U16_TYPECONST + 1) 0 = 0 ∧
    (buildEntryBody tbl r t s p).getD OFF_PRE_FLAGS_BYTE 0 =
      clampU8 ((r.pre_flags_byte % 256 : Nat) : Int) ∧
    (buildEntryBody tbl r t s p).getD OFF_OBJECT_FLAGS 0 = clampU8 (packObjectFlags r) ∧
    (buildEntryBody tbl r t s p).getD OFF_CAN_DESPAWN 0 = clampU8 r.can_despawn ∧
    (buildEntryBody tbl r t s p).getD OFF_TEAM_INDEX 0 = clampU8 (resolveTeamByte r) ∧
    (buildEntryBody tbl r t s p).getD OFF_SPAWN_TIME 0 = clampU8 r.spawn_time ∧
    (buildEntryBody tbl r t s p).getD OFF_OBJECT_COLOR 0 = clampU8 r.object_color ∧
    (buildEntryBody tbl r t s p).getD OFF_SPAWN_SEQ 0 = toU8TwosComplement r.spawn_sequence ∧
    (buildEntryBody tbl r t s p).getD OFF_TIMER_USER 0 =
      clampU8 (toU8TwosComplement (clampS8Timer r.timer_user_data)) ∧
    (buildEntryBody tbl r t s p).getD OFF_SPAWN_CHAN 0 = clampU8 r.spawn_channel ∧
    (buildEntryBody tbl r t s p).getD OFF_LABEL_1 0 =
      clampU8 (findLabelIndexByName tbl (strTrim r.label_name_1)) ∧
    (buildEntryBody tbl r t s p).getD OFF_LABEL_2 0 =
      clampU8 (findLabelIndexByName tbl (strTrim r.label_name_2)) ∧
    (buildEntryBody tbl r t s p).getD OFF_LABEL_3 0 =
      clampU8 (findLabelIndexByName tbl (strTrim r.label_name_3)) ∧
    (buildEntryBody tbl r t s p).getD OFF_LABEL_4 0 =
      clampU8 (findLabelIndexByName tbl (strTrim r.label_name_4)) ∧
    (buildEntryBody tbl r t s p).getD OFF_TELE_CHAN 0 = clampU8 r.teleporter_channel ∧
    (buildEntryBody tbl r t s p).getD OFF_PASS_FLAGS 0 = clampU8 (packPassabilityFlags r) := by
  unfold buildEntryBody initEntryForType setTailFlag
  refine ⟨?_, ?_, ?_, ?_, ?_, ?_, ?_, ?_, ?_, ?_, ?_, ?_, ?_, ?_, ?_, ?_, ?_, ?_, ?_⟩
  · simp [List.length_set, EMPTY_SLOT_BYTES]
  all_goals repeat rw [getD_set_ne _ _ _ _ _ (by decide)]
  all_goals rw [getD_set_self _ _ _ _ (by simp [List.length_set, EMPTY_SLOT_BYTES,
    OFF_U16_TYPECONST, OFF_PRE_FLAGS_BYTE, OFF_OBJECT_FLAGS, OFF_CAN_DESPAWN, OFF_TEAM_INDEX,
    OFF_SPAWN_TIME, OFF_OBJECT_COLOR, OFF_SPAWN_SEQ, OFF_TIMER_USER, OFF_SPAWN_CHAN,
    OFF_LABEL_1, OFF_LABEL_2, OFF_LABEL_3, OFF_LABEL_4, OFF_TELE_CHAN, OFF_PASS_FLAGS])]

/-- Round trip of the packed object-flags byte over the allowed enum
identifiers. -/
theorem flags_roundtrip (phys gs sym pas : String)
    (hp : phys = "NORMAL" ∨ phys = "FIXED" ∨ phys = "PHASED")
    (hg : gs = "0" ∨ gs = "1")
    (hs : sym = "NONE" ∨ sym = "SYMMETRIC" ∨ sym = "ASYMMETRIC" ∨ sym = "BOTH")
    (hpa : pas = "0" ∨ pas = "1") :
    decodePhysicsMode (clampU8 (packFlagsOf phys gs sym pas)) = phys ∧
    decodeGameSpecific (clampU8 (packFlagsOf phys gs sym pas)) = gs ∧
    decodeSymmetry (clampU8 (packFlagsOf phys gs sym pas)) = sym ∧
    decodePlaceAtStart (clampU8 (packFlagsOf phys gs sym pas)) = pas := by
  rcases hp with h1 | h1 | h1 <;> rcases hg with h2 | h2 <;>
    rcases hs with h3 | h3 | h3 | h3 <;> rcases hpa with h4 | h4 <;>
    subst h1 <;> subst h2 <;> subst h3 <;> subst h4 <;> decide

/-- Round trip of the packed passability byte over the allowed enum
identifiers. -/
theorem pass_roundtrip (pl la he fl pr : String)
    (h1 : pl = "ALLOW" ∨ pl = "BLOCK") (h2 : la = "ALLOW" ∨ la = "BLOCK")
    (h3 : he = "ALLOW" ∨ he = "BLOCK") (h4 : fl = "ALLOW" ∨ fl = "BLOCK")
    (h5 : pr = "ALLOW" ∨ pr = "BLOCK") :
    decodePassPlayers (clampU8 (packPassOf pl la he fl pr)) = pl ∧
    decodePassLand (clampU8 (packPassOf pl la he fl pr)) = la ∧
    decodePassHeavy (clampU8 (packPassOf pl la he fl pr)) = he ∧
    decodePassFlying (clampU8 (packPassOf pl la he fl pr)) = fl ∧
    decodePassProjectiles (clampU8 (packPassOf pl la he fl pr)) = pr := by
  rcases h1 with h1 | h1 <;> rcases h2 with h2 | h2 <;> rcases h3 with h3 | h3 <;>
    rcases h4 with h4 | h4 <;> rcases h5 with h5 | h5 <;>
    subst h1 <;> subst h2 <;> subst h3 <;> subst h4 <;> subst h5 <;> decide

/-- The color decode is the identity on the allowed values. -/
theorem decodeColor_of (c : Nat) (h : c ≤ 7 ∨ c = 255) :
    (if c = 255 then 255 else if c ≤ 7 then c else 255) = c := by
  rcases h with h | h <;> split_ifs <;> omega

/-- The team decode is the identity on values up to eight. -/
theorem decodeTeam_of (tm : Nat) (h : tm ≤ 8) : (if tm > 8 then 8 else tm) = tm := by
  split_ifs <;> omega

/-- The teleporter-channel decode is the identity on the allowed values. -/
theorem decodeTele_of (c : Nat) (h : c ≤ 25 ∨ c = 255) :
    (if c = 255 then 255 else if c ≤ 25 then c else 255) = c := by
  rcases h with h | h <;> split_ifs <;> omega

theorem vec3_ext_xyz (a b : Vec3) (hx : a.x = b.x) (hy : a.y = b.y) (hz : a.z = b.z) :
    a = b := by
  cases a
  cases b
  simp_all

theorem dot_comm (a b : Vec3) : dot a b = dot b a := by
  simp only [dot]
  ring

theorem lengthSq_nonneg (v : Vec3) : 0 ≤ lengthSq v := by
  simp only [lengthSq, dot]
  nlinarith [mul_self_nonneg v.x, mul_self_nonneg v.y, mul_self_nonneg v.z]

theorem vlen_sq (v : Vec3) : vlen v ^ 2 = lengthSq v := Real.sq_sqrt (lengthSq_nonneg v)

theorem vlen_lt_iff (v : Vec3) (c : ℝ) (hc : 0 < c) : vlen v < c ↔ lengthSq v < c ^ 2 :=
  Real.sqrt_lt' hc

theorem vlen_eq_one (v : Vec3) (h : lengthSq v = 1) : vlen v = 1 := by
  unfold vlen
  rw [h]
  exact Real.sqrt_one

theorem normalize_of_unit (v : Vec3) (h : lengthSq v = 1) : normalize v = v := by
  unfold normalize
  rw [vlen_eq_one v h]
  exact vec3_ext_xyz _ _ (div_one _) (div_one _) (div_one _)

theorem lengthSq_pos_of_not_small (v : Vec3) (h : ¬ vlen v < 1e-8) : 0 < lengthSq v := by
  rcases lt_or_eq_of_le (lengthSq_nonneg v) with hpos | heq
  · exact hpos
  · exfalso
    apply h
    unfold vlen
    rw [← heq, Real.sqrt_zero]
    norm_num

theorem lengthSq_normalize_pos (v : Vec3) (h : 0 < lengthSq v) :
    lengthSq (normalize v) = 1 := by
  have hpos : 0 < vlen v := Real.sqrt_pos.mpr h
  have hs : vlen v ^ 2 = lengthSq v := vlen_sq v
  have expand : ∀ a : ℝ, a / vlen v * (a / vlen v) = a * a / vlen v ^ 2 := fun a => by
    rw [div_mul_div_comm]
    ring_nf
  have key : lengthSq (normalize v) = lengthSq v / vlen v ^ 2 := by
    simp only [normalize, lengthSq, dot, expand]
    rw [div_add_div_same, div_add_div_same]
  rw [key, hs, div_self (ne_of_gt h)]

theorem dot_normalize_right (a v : Vec3) (h : dot a v = 0) : dot a (normalize v) = 0 := by
  simp only [dot] at h
  have key : dot a (normalize v) = (a.x * v.x + a.y * v.y + a.z * v.z) / vlen v := by
    simp only [dot, normalize]
    ring
  rw [key, h, zero_div]

theorem lengthSq_cross (a b : Vec3) :
    lengthSq (cross a b) = lengthSq a * lengthSq b - dot a b ^ 2 := by
  simp only [lengthSq, dot, cross]
  ring

theorem dot_cross_right_self (a b : Vec3) : dot a (cross b a) = 0 := by
  simp only [dot, cross]
  ring

theorem dot_cross_self_left (a b : Vec3) : dot a (cross a b) = 0 := by
  simp only [dot, cross]
  ring

theorem dot_cross_right_arg (a b : Vec3) : dot b (cross a b) = 0 := by
  simp only [dot, cross]
  ring

theorem cross_cross_of_unit (a b : Vec3) (ha : lengthSq a = 1) (hab : dot a b = 0) :
    cross a (cross b a) = b := by
  simp only [lengthSq, dot] at ha hab
  refine vec3_ext_xyz _ _ ?_ ?_ ?_
  · simp only [cross]
    linear_combination b.x * ha - a.x * hab
  · simp only [cross]
    linear_combination b.y * ha - a.y * hab
  · simp only [cross]
    linear_combination b.z * ha - a.z * hab

theorem repairX_unit (f : Vec3) : lengthSq (repairX f) = 1 := by
  unfold repairX
  split
  · simp only [lengthSq, dot]
    norm_num
  · rename_i h
    exact lengthSq_normalize_pos f (lengthSq_pos_of_not_small f h)

theorem repairZ_unit (u : Vec3) : lengthSq (repairZ u) = 1 := by
  unfold repairZ
  split
  · simp only [lengthSq, dot]
    norm_num
  · rename_i h
    exact lengthSq_normalize_pos u (lengthSq_pos_of_not_small u h)

theorem altUp_unit (x : Vec3) : lengthSq (altUp x) = 1 := by
  unfold altUp
  split <;> simp only [lengthSq, dot] <;> norm_num

/-- The y axis before its final normalization is always a cross product with x
of a unit vector, and (when x and the repaired up are unit vectors) it cannot
fall below the degeneracy threshold: the fallback branch picks an alternate up
far enough from parallel to x. -/
theorem yRaw_spec (x z : Vec3) (hx : lengthSq x = 1) (hz : lengthSq z = 1) :
    (∃ w, lengthSq w = 1 ∧ yRaw x z = cross w x) ∧
    ((1e-8 : ℝ)) ^ 2 ≤ lengthSq (yRaw x z) := by
  unfold yRaw
  by_cases hcase : vlen (cross z x) < 1e-8
  · rw [if_pos hcase]
    have haltsq : lengthSq (altUp x) = 1 := altUp_unit x
    have hnorm : normalize (altUp x) = altUp x := normalize_of_unit _ haltsq
    refine ⟨⟨altUp x, haltsq, by rw [hnorm]⟩, ?_⟩
    rw [hnorm, lengthSq_cross, haltsq, hx]
    unfold altUp
    split
    · rename_i h
      have hd : dot x ⟨0, 1, 0⟩ = x.y := by simp [dot]
      rw [hd] at h
      have h2 := abs_lt.mp h
      have hd2 : dot (⟨0, 1, 0⟩ : Vec3) x = x.y := by simp [dot]
      rw [hd2]
      nlinarith [h2.1, h2.2]
    · rename_i h
      have hd : dot x ⟨0, 1, 0⟩ = x.y := by simp [dot]
      rw [hd] at h
      have habs : (0.99 : ℝ) ≤ |x.y| := le_of_not_lt h
      have hysq : (0.99 : ℝ) ^ 2 ≤ x.y ^ 2 := by
        have := sq_abs x.y
        nlinarith [habs, abs_nonneg x.y]
      have hd2 : dot (⟨0, 0, 1⟩ : Vec3) x = x.z := by simp [dot]
      rw [hd2]
      simp only [lengthSq, dot] at hx
      nlinarith [hysq, mul_self_nonneg x.x]
  · rw [if_neg hcase]
    refine ⟨⟨z, hz, rfl⟩, ?_⟩
    exact le_of_not_lt (fun hlt => hcase ((vlen_lt_iff _ _ (by norm_num)).mpr hlt))

theorem yFinal_spec (x z : Vec3) (hx : lengthSq x = 1) (hz : lengthSq z = 1) :
    lengthSq (yFinal x z) = 1 ∧ dot x (yFinal x z) = 0 := by
  obtain ⟨⟨w, hw, hcross⟩, hbound⟩ := yRaw_spec x z hx hz
  have hpos : 0 < lengthSq (yRaw x z) := lt_of_lt_of_le (by norm_num) hbound
  have hnot : ¬ vlen (yRaw x z) < 1e-8 := fun hlt => by
    have := (vlen_lt_iff _ _ (by norm_num)).mp hlt
    linarith
  unfold yFinal
  rw [if_neg hnot]
  refine ⟨lengthSq_normalize_pos _ hpos, ?_⟩
  apply dot_normalize_right
  rw [hcross]
  exact dot_cross_right_self x w

theorem zFinal_spec (x y : Vec3) (hx : lengthSq x = 1) (hy : lengthSq y = 1)
    (hxy : dot x y = 0) : zFinal x y = cross x y ∧ lengthSq (zFinal x y) = 1 := by
  have hz2 : lengthSq (cross x y) = 1 := by
    rw [lengthSq_cross, hx, hy, hxy]
    norm_num
  have hεz : ¬ vlen (cross x y) < 1e-8 := by
    rw [vlen_eq_one _ hz2]
    norm_num
  unfold zFinal
  rw [if_neg hεz, normalize_of_unit _ hz2]
  exact ⟨rfl, hz2⟩

/-- Decoding an already orthonormal pair reproduces it: x is forward, z is up,
and y is their completing axis. -/
theorem decodeBasis_of_orthonormal (f u : Vec3) (hf : lengthSq f = 1) (hu : lengthSq u = 1)
    (hfu : dot f u = 0) : decodeBasis f u = (f, cross u f, u) := by
  have hεf : ¬ vlen f < 1e-8 := by
    rw [vlen_eq_one f hf]
    norm_num
  have hεu : ¬ vlen u < 1e-8 := by
    rw [vlen_eq_one u hu]
    norm_num
  have hx : repairX f = f := by
    unfold repairX
    rw [if_neg hεf, normalize_of_unit f hf]
  have hz : repairZ u = u := by
    unfold repairZ
    rw [if_neg hεu, normalize_of_unit u hu]
  have hy0 : lengthSq (cross u f) = 1 := by
    rw [lengthSq_cross, hu, hf, dot_comm u f, hfu]
    norm_num
  have hεy : ¬ vlen (cross u f) < 1e-8 := by
    rw [vlen_eq_one _ hy0]
    norm_num
  have hyraw : yRaw f u = cross u f := by
    unfold yRaw
    rw [if_neg hεy]
  have hyfin : yFinal f u = cross u f := by
    unfold yFinal
    rw [hyraw, if_neg hεy, normalize_of_unit _ hy0]
  have hz2 : cross f (cross u f) = u := cross_cross_of_unit f u hf hfu
  have hz2sq : lengthSq (cross f (cross u f)) = 1 := by
    rw [hz2]
    exact hu
  have hεz : ¬ vlen (cross f (cross u f)) < 1e-8 := by
    rw [vlen_eq_one _ hz2sq]
    norm_num
  have hzfin : zFinal f (cross u f) = u := by
    unfold zFinal
    rw [if_neg hεz, normalize_of_unit _ hz2sq, hz2]
  simp only [decodeBasis]
  rw [hx, hz, hyfin, hzfin]

theorem forgeRecord_ext_all (a b : ForgeRecord)
    (e1 : a.template_name = b.template_name) (e2 : a.pre_flags_byte = b.pre_flags_byte)
    (e3 : a.unmapped = b.unmapped) (e4 : a.physics_mode = b.physics_mode)
    (e5 : a.game_specific = b.game_specific) (e6 : a.symmetry = b.symmetry)
    (e7 : a.place_at_start = b.place_at_start) (e8 : a.can_despawn = b.can_despawn)
    (e9 : a.team = b.team) (e10 : a.spawn_time = b.spawn_time)
    (e11 : a.object_color = b.object_color) (e12 : a.spawn_sequence = b.spawn_sequence)
    (e13 : a.timer_user_data = b.timer_user_data) (e14 : a.spawn_channel = b.spawn_channel)
    (e15 : a.label_name_1 = b.label_name_1) (e16 : a.label_name_2 = b.label_name_2)
    (e17 : a.label_name_3 = b.label_name_3) (e18 : a.label_name_4 = b.label_name_4)
    (e19 : a.teleporter_channel = b.teleporter_channel) (e20 : a.pass_players = b.pass_players)
    (e21 : a.pass_land = b.pass_land) (e22 : a.pass_heavy = b.pass_heavy)
    (e23 : a.pass_flying = b.pass_flying) (e24 : a.pass_projectiles = b.pass_projectiles) :
    a = b := by
  cases a
  cases b
  simp_all

/-- Claim C1, amended: the original claim fails on records whose object color
equals 1, where the encoder forces the team byte to 0 (see the
counterexample); with object color 1 excluded, decoding the encoded entry of a
well-formed record reproduces every scalar field exactly, and reproduces
position, forward and up exactly in the real model of the stored floats when
forward and up are orthonormal. -/
theorem c1_encode_decode_roundtrip (tbl : List LabelItem) (r : ForgeRecord) (t : ObjTransform)
    (hwf : WellFormedRecord tbl r) (hcolor : r.object_color ≠ 1)
    (hfwd : lengthSq t.colX = 1) (hup : lengthSq t.colZ = 1)
    (hortho : dot t.colX t.colZ = 0) :
    ∃ e, buildEntryScalarBytes tbl r = some e ∧ decodeScalars tbl e = r ∧
      (decodeTransform (encodeFloats t)).colX = t.colX ∧
      (decodeTransform (encodeFloats t)).colZ = t.colZ ∧
      (decodeTransform (encodeFloats t)).pos = t.pos := by
  obtain ⟨hunm, hfound, htrim, hpre, hphys, hgs, hsym, hpas, hdesp, hteam, htime, hcol,
    hseq, htimer, hchan, htele, hl1, hl2, hl3, hl4, hp1, hp2, hp3, hp4, hp5⟩ := hwf
  obtain ⟨E, hfindE⟩ := Option.isSome_iff_exists.mp hfound
  have hEmem := List.mem_of_find?_eq_some hfindE
  obtain ⟨hEtop, hEsub, hEpre, hEnm⟩ := registry_bounds E hEmem
  have hEname : E.name = r.template_name := by
    have hpred := List.find?_some hfindE
    simp only [beq_iff_eq] at hpred
    rw [hpred, htrim]
  have hgetinfo : getTypeInfo r.template_name = some (E.top, E.sub, E.pre % 256) := by
    unfold getTypeInfo
    rw [hfindE]
    rfl
  have hprelt : r.pre_flags_byte < 256 := by omega
  have htriple : getExportTypeTriple r = some (E.top, E.sub, r.pre_flags_byte) := by
    simp only [getExportTypeTriple, hunm, hgetinfo, Nat.mod_eq_of_lt hEtop,
      Nat.mod_eq_of_lt hEsub, Nat.mod_eq_of_lt hprelt]
  have hbuild : buildEntryScalarBytes tbl r =
      some (buildEntryBody tbl r E.top E.sub r.pre_flags_byte) := by
    simp only [buildEntryScalarBytes, htriple]
  obtain ⟨hlen, h00, h30, h31, h3B, h3C, h3D, h3E, h3F, h40, h41, h42, h43, h44, h45,
    h46, h47, h48, h49⟩ := buildEntryBody_getD tbl r E.top E.sub r.pre_flags_byte
  rw [Nat.mod_eq_of_lt hEtop] at h00
  rw [Nat.mod_eq_of_lt hEsub] at h30
  rw [Nat.mod_eq_of_lt hprelt, clampU8_coe_of_le _ hpre] at h3B
  rw [clampU8_coe_of_le _ hdesp] at h3D
  have hteamB : resolveTeamByte r = r.team := by
    simp only [resolveTeamByte, COSMIC_FORCE_DEFENDERS_TEAM, isRedTeamCosmic,
      COSMIC_RED_COLOR_VALUE, COSMIC_DEFENDERS_TEAM_VALUE]
    simp [hcolor]
  rw [hteamB, clampU8_coe_of_le _ (by omega : r.team ≤ 255)] at h3E
  rw [clampU8_coe_of_le _ htime] at h3F
  have hcol255 : r.object_color ≤ 255 := by rcases hcol with h | h <;> omega
  rw [clampU8_coe_of_le _ hcol255] at h40
  rw [clampS8Timer_of_mem _ htimer.1 htimer.2,
    clampU8_coe_of_le _ (Nat.lt_succ_iff.mp (toU8TwosComplement_lt r.timer_user_data))] at h42
  rw [clampU8_coe_of_le _ hchan] at h43
  rw [clampU8_coe_of_le _ (findLabelIndexByName_le tbl _)] at h44
  rw [clampU8_coe_of_le _ (findLabelIndexByName_le tbl _)] at h45
  rw [clampU8_coe_of_le _ (findLabelIndexByName_le tbl _)] at h46
  rw [clampU8_coe_of_le _ (findLabelIndexByName_le tbl _)] at h47
  have htele255 : r.teleporter_channel ≤ 255 := by rcases htele with h | h <;> omega
  rw [clampU8_coe_of_le _ htele255] at h48
  have hname : decodeTypeName
      ((buildEntryBody tbl r E.top E.sub r.pre_flags_byte).getD 0 0)
      ((buildEntryBody tbl r E.top E.sub r.pre_flags_byte).getD OFF_U16_TYPECONST 0)
      ((buildEntryBody tbl r E.top E.sub r.pre_flags_byte).getD OFF_PRE_FLAGS_BYTE 0) =
      some r.template_name := by
    rw [h00, h30, h3B, ← hEname]
    exact decodeTypeName_of_entry E hEmem r.pre_flags_byte
  refine ⟨_, hbuild, ?_, ?_, ?_, ?_⟩
  · apply forgeRecord_ext_all
    · simp only [decodeScalars]
      rw [hname]
      rfl
    · simp only [decodeScalars]
      rw [h3B]
      exact Nat.mod_eq_of_lt hprelt
    · simp only [decodeScalars]
      rw [hname, hunm]
    · simp only [decodeScalars]
      rw [h3C]
      exact (flags_roundtrip _ _ _ _ hphys hgs hsym hpas).1
    · simp only [decodeScalars]
      rw [h3C]
      exact (flags_roundtrip _ _ _ _ hphys hgs hsym hpas).2.1
    · simp only [decodeScalars]
      rw [h3C]
      exact (flags_roundtrip _ _ _ _ hphys hgs hsym hpas).2.2.1
    · simp only [decodeScalars]
      rw [h3C]
      exact (flags_roundtrip _ _ _ _ hphys hgs hsym hpas).2.2.2
    · simp only [decodeScalars]
      exact h3D
    · simp only [decodeScalars]
      rw [h3E]
      exact decodeTeam_of r.team hteam
    · simp only [decodeScalars]
      exact h3F
    · simp only [decodeScalars]
      rw [h40]
      exact decodeColor_of _ hcol
    · simp only [decodeScalars]
      rw [h41]
      exact s8FromByte_toU8 _ hseq.1 hseq.2
    · simp only [decodeScalars]
      rw [h42]
      exact s8FromByte_toU8 _ (by omega) htimer.2
    · simp only [decodeScalars]
      exact h43
    · simp only [decodeScalars]
      rw [h44]
      exact hl1
    · simp only [decodeScalars]
      rw [h45]
      exact hl2
    · simp only [decodeScalars]
      rw [h46]
      exact hl3
    · simp only [decodeScalars]
      rw [h47]
      exact hl4
    · simp only [decodeScalars]
      rw [h48]
      exact decodeTele_of _ htele
    · simp only [decodeScalars]
      rw [h49]
      exact (pass_roundtrip _ _ _ _ _ hp1 hp2 hp3 hp4 hp5).1
    · simp only [decodeScalars]
      rw [h49]
      exact (pass_roundtrip _ _ _ _ _ hp1 hp2 hp3 hp4 hp5).2.1
    · simp only [decodeScalars]
      rw [h49]
      exact (pass_roundtrip _ _ _ _ _ hp1 hp2 hp3 hp4 hp5).2.2.1
    · simp only [decodeScalars]
      rw [h49]
      exact (pass_roundtrip _ _ _ _ _ hp1 hp2 hp3 hp4 hp5).2.2.2.1
    · simp only [decodeScalars]
      rw [h49]
      exact (pass_roundtrip _ _ _ _ _ hp1 hp2 hp3 hp4 hp5).2.2.2.2
  · have henc : encodeFloats t = ⟨t.pos, t.colX, t.colZ⟩ := by
      unfold encodeFloats
      rw [normalize_of_unit _ hfwd, normalize_of_unit _ hup]
    simp only [decodeTransform, henc]
    rw [decodeBasis_of_orthonormal t.colX t.colZ hfwd hup hortho]
  · have henc : encodeFloats t = ⟨t.pos, t.colX, t.colZ⟩ := by
      unfold encodeFloats
      rw [normalize_of_unit _ hfwd, normalize_of_unit _ hup]
    simp only [decodeTransform, henc]
    rw [decodeBasis_of_orthonormal t.colX t.colZ hfwd hup hortho]
  · have henc : encodeFloats t = ⟨t.pos, t.colX, t.colZ⟩ := by
      unfold encodeFloats
      rw [normalize_of_unit _ hfwd, normalize_of_unit _ hup]
    simp only [decodeTransform, henc]

/-- Witness for the amended claim C1 at a concrete record and the identity
transform. -/
theorem c1_encode_decode_roundtrip_witness :
    WellFormedRecord [] rRoundTrip ∧ rRoundTrip.object_color ≠ 1 ∧
    (∃ e, buildEntryScalarBytes [] rRoundTrip = some e ∧ decodeScalars [] e = rRoundTrip ∧
      (decodeTransform (encodeFloats idTransform)).colX = idTransform.colX ∧
      (decodeTransform (encodeFloats idTransform)).colZ = idTransform.colZ ∧
      (decodeTransform (encodeFloats idTransform)).pos = idTransform.pos) := by
  have h1 : WellFormedRecord [] rRoundTrip := by decide
  have h2 : rRoundTrip.object_color ≠ 1 := by decide
  have h3 : lengthSq idTransform.colX = 1 := by norm_num [idTransform, lengthSq, dot]
  have h4 : lengthSq idTransform.colZ = 1 := by norm_num [idTransform, lengthSq, dot]
  have h5 : dot idTransform.colX idTransform.colZ = 0 := by norm_num [idTransform, dot]
  exact ⟨h1, h2, c1_encode_decode_roundtrip [] rRoundTrip idTransform h1 h2 h3 h4 h5⟩

/-- Counterexample to claim C1 as stated: a well-formed record with object
color 1 and team 2 whose encoded team byte decodes to 0, so the round trip
does not reproduce the team field although forward and up are orthonormal. -/
theorem c1_claim_counterexample :
    WellFormedRecord [] rColorOneTeamTwo ∧ rColorOneTeamTwo.team = 2 ∧
    (buildEntryScalarBytes [] rColorOneTeamTwo).map
      (fun e => (decodeScalars [] e).team) = some 0 := by
  refine ⟨by decide, by decide, by decide⟩

/-- Claim C2: a triple with no registry match survives the decode as an
unmapped tag with the raw triple preserved verbatim, and re-encoding the
decoded record writes the original top, sub and pre-flags bytes back. -/
theorem c2_unknown_triple_roundtrip (tbl : List LabelItem) (e : List Nat)
    (htop : e.getD 0 0 < 256) (hsub : e.getD OFF_U16_TYPECONST 0 < 256)
    (hpre : e.getD OFF_PRE_FLAGS_BYTE 0 < 256)
    (hex : typekeyToName (e.getD 0 0) (e.getD OFF_U16_TYPECONST 0)
      (e.getD OFF_PRE_FLAGS_BYTE 0) = none)
    (hloose : typekeyToNameLoose (e.getD 0 0) (e.getD OFF_U16_TYPECONST 0) = none) :
    (decodeScalars tbl e).unmapped =
      some (e.getD 0 0, e.getD OFF_U16_TYPECONST 0, e.getD OFF_PRE_FLAGS_BYTE 0) ∧
    (decodeScalars tbl e).template_name = DEFAULT_OBJECT_TYPE ∧
    (decodeScalars tbl e).pre_flags_byte = e.getD OFF_PRE_FLAGS_BYTE 0 ∧
    ∃ eOut, buildEntryScalarBytes tbl (decodeScalars tbl e) = some eOut ∧
      eOut.getD 0 0 = e.getD 0 0 ∧
      eOut.getD OFF_U16_TYPECONST 0 = e.getD OFF_U16_TYPECONST 0 ∧
      eOut.getD OFF_PRE_FLAGS_BYTE 0 = e.getD OFF_PRE_FLAGS_BYTE 0 := by
  have hdn := decodeTypeName_of_none _ _ _ hex hloose
  have hu : (decodeScalars tbl e).unmapped =
      some (e.getD 0 0, e.getD OFF_U16_TYPECONST 0, e.getD OFF_PRE_FLAGS_BYTE 0) := by
    simp only [decodeScalars, hdn, Nat.mod_eq_of_lt htop, Nat.mod_eq_of_lt hsub,
      Nat.mod_eq_of_lt hpre]
  have htn : (decodeScalars tbl e).template_name = DEFAULT_OBJECT_TYPE := by
    simp only [decodeScalars, hdn]
    rfl
  have hpf : (decodeScalars tbl e).pre_flags_byte = e.getD OFF_PRE_FLAGS_BYTE 0 := by
    simp only [decodeScalars]
    exact Nat.mod_eq_of_lt hpre
  have htriple : getExportTypeTriple (decodeScalars tbl e) =
      some (e.getD 0 0, e.getD OFF_U16_TYPECONST 0, e.getD OFF_PRE_FLAGS_BYTE 0) := by
    simp only [getExportTypeTriple, hu, Nat.mod_eq_of_lt htop, Nat.mod_eq_of_lt hsub,
      Nat.mod_eq_of_lt hpre]
  obtain ⟨hlen, h00, h30, h31, h3B, _⟩ := buildEntryBody_getD tbl (decodeScalars tbl e)
    (e.getD 0 0) (e.getD OFF_U16_TYPECONST 0) (e.getD OFF_PRE_FLAGS_BYTE 0)
  have hbuild : buildEntryScalarBytes tbl (decodeScalars tbl e) =
      some (buildEntryBody tbl (decodeScalars tbl e) (e.getD 0 0)
        (e.getD OFF_U16_TYPECONST 0) (e.getD OFF_PRE_FLAGS_BYTE 0)) := by
    simp only [buildEntryScalarBytes, htriple]
  refine ⟨hu, htn, hpf, _, hbuild, ?_, ?_, ?_⟩
  · rw [h00]
    exact Nat.mod_eq_of_lt htop
  · rw [h30]
    exact Nat.mod_eq_of_lt hsub
  · rw [h3B, hpf, Nat.mod_eq_of_lt hpre]
    exact clampU8_coe_of_le _ (by omega)

/-- Witness for claim C2 at a concrete entry with the unknown top id 0xF0. -/
theorem c2_unknown_triple_roundtrip_witness :
    (decodeScalars [] eUnknownTriple).unmapped = some (240, 0, 0) ∧
    (decodeScalars [] eUnknownTriple).template_name = DEFAULT_OBJECT_TYPE := by
  have h := c2_unknown_triple_roundtrip [] eUnknownTriple (by decide) (by decide) (by decide)
    (by decide) (by decide)
  refine ⟨?_, h.2.1⟩
  rw [h.1]
  decide

/-- Claim C3, amended: the stop decision at an empty slot reads the chain flag
of the empty entry itself (its low byte against 0x01), not the flag of the
previous entry. With that correction the scan agrees with the stated rules on
every memory image whose per-slot reads return full-stride buffers. -/
theorem c3_scan_rules (read : Nat → List Nat) (limit : Nat)
    (hlen : ∀ i, (read i).length = ENTRY_STRIDE) :
    readAllEntries read limit = scanClaimOwn read 0 limit := by
  suffices h : ∀ fuel i, readEntriesFrom read i fuel = scanClaimOwn read i fuel from
    h limit 0
  intro fuel
  induction fuel with
  | zero => intro i; rfl
  | succ n ih =>
    intro i
    simp only [readEntriesFrom, scanClaimOwn, ih, hlen i, ne_eq, not_true_eq_false,
      if_false]

/-- Witness for the amended claim C3 on a memory image of blank live slots. -/
theorem c3_scan_rules_witness :
    readAllEntries (fun _ => List.replicate 76 0) 5 =
      scanClaimOwn (fun _ => List.replicate 76 0) 0 5 :=
  c3_scan_rules _ 5 (fun _ => by simp [ENTRY_STRIDE])

/-- Counterexample to claim C3 as stated: slot 0 is live with its chain flag
set, slot 1 is empty with a clear own flag, slot 2 is non-empty stale data.
The code stops at slot 1 and returns only slot 0, while the stated
previous-flag rule would skip slot 1 and also collect slot 2. -/
theorem c3_claim_counterexample :
    readAllEntries cexRead 3 ≠ scanClaimAsStated cexRead 0 3 ∧
    readAllEntries cexRead 3 = [(0, List.replicate 74 0 ++ [1, 0])] := by
  refine ⟨by decide, by decide⟩

theorem take_tail_setTailFlag (b : List Nat) (m : Bool) :
    (setTailFlag b m).take OFF_TAIL_FLAG = b.take OFF_TAIL_FLAG := by
  apply List.ext_getElem?
  intro n
  by_cases hn : n < OFF_TAIL_FLAG
  · rw [List.getElem?_take_of_lt hn, List.getElem?_take_of_lt hn]
    unfold setTailFlag
    rw [List.getElem?_set_ne (by unfold OFF_TAIL_FLAG ENTRY_STRIDE at hn ⊢; omega),
      List.getElem?_set_ne (by unfold OFF_TAIL_FLAG ENTRY_STRIDE at hn ⊢; omega)]
  · rw [List.getElem?_eq_none, List.getElem?_eq_none] <;>
      simp only [List.length_take] <;> omega

theorem chainFlagU16_setTailFlag (b : List Nat) (m : Bool) (hb : b.length = 76) :
    chainFlagU16 (setTailFlag b m) = if m then 1 else 0 := by
  unfold chainFlagU16 setTailFlag
  rw [getD_set_self _ _ _ _ (by simp [List.length_set, hb, OFF_TAIL_FLAG, ENTRY_STRIDE]),
    getD_set_ne _ _ _ _ _ (by simp [OFF_TAIL_FLAG, ENTRY_STRIDE]),
    getD_set_self _ _ _ _ (by simp [hb, OFF_TAIL_FLAG, ENTRY_STRIDE])]
  cases m <;> simp

theorem exportImage_getD (entries : List (List Nat)) (i : Nat) (h : i < maxObjectCount) :
    (exportImage entries).getD i [] = exportSlotImage entries i := by
  unfold exportImage
  rw [List.getD_eq_getElem?_getD, List.getElem?_map, List.getElem?_range h]
  rfl

/-- Claim C4: the export loop writes all 650 slots; for the first N records
slot i carries record i (all bytes below the chain flag unchanged) with the
u16 chain flag 1 exactly while more records follow and 0 on the last record,
and every remaining slot is the canonical empty template, whose first six
bytes are 0xFF and whose chain flag is 0. -/
theorem c4_export_full_array (entries : List (List Nat))
    (hN : entries.length ≤ maxObjectCount)
    (hlen : ∀ b ∈ entries, b.length = ENTRY_STRIDE) :
    (exportImage entries).length = maxObjectCount ∧
    (∀ i, i < entries.length →
      ((exportImage entries).getD i []).take OFF_TAIL_FLAG =
        (entries.getD i []).take OFF_TAIL_FLAG ∧
      chainFlagU16 ((exportImage entries).getD i []) =
        (if i + 1 < entries.length then 1 else 0)) ∧
    (∀ i, entries.length ≤ i → i < maxObjectCount →
      (exportImage entries).getD i [] = EMPTY_SLOT_BYTES) ∧
    EMPTY_SLOT_BYTES.take 6 = List.replicate 6 255 ∧
    chainFlagU16 EMPTY_SLOT_BYTES = 0 := by
  refine ⟨by simp [exportImage, maxObjectCount], ?_, ?_, by decide, by decide⟩
  · intro i hi
    have hi650 : i < maxObjectCount := lt_of_lt_of_le hi hN
    have hmem : entries.getD i [] ∈ entries := by
      rw [List.getD_eq_getElem entries [] hi]
      exact List.getElem_mem hi
    constructor
    · rw [exportImage_getD entries i hi650]
      unfold exportSlotImage
      rw [if_pos hi]
      exact take_tail_setTailFlag _ _
    · rw [exportImage_getD entries i hi650]
      unfold exportSlotImage
      rw [if_pos hi, chainFlagU16_setTailFlag _ _ (hlen _ hmem)]
      have hiff : (decide (i < entries.length - 1) = true) ↔ (i + 1 < entries.length) := by
        simp only [decide_eq_true_eq]
        omega
      by_cases hlast : i + 1 < entries.length
      · rw [if_pos (hiff.mpr hlast), if_pos hlast]
      · rw [if_neg (fun hc => hlast (hiff.mp hc)), if_neg hlast]
  · intro i hNi hi650
    rw [exportImage_getD entries i hi650]
    unfold exportSlotImage
    rw [if_neg (by omega)]
    decide

/-- Witness for claim C4 on a concrete three-record export. -/
theorem c4_export_full_array_witness :
    chainFlagU16 ((exportImage entries3).getD 0 []) = 1 ∧
    chainFlagU16 ((exportImage entries3).getD 2 []) = 0 ∧
    (exportImage entries3).getD 5 [] = EMPTY_SLOT_BYTES := by
  have h := c4_export_full_array entries3 (by decide) (by decide)
  refine ⟨?_, ?_, h.2.2.1 5 (by decide) (by decide)⟩
  · have h0 := (h.2.1 0 (by decide)).2
    rwa [if_pos (by decide)] at h0
  · have h2 := (h.2.1 2 (by decide)).2
    rwa [if_neg (by decide)] at h2

/-- Claim C5, amended: every u8 field is clamped to [0, 255] on encode, and
timer_user_data is clamped to [-127, 127] (so 200 encodes as 127 and -200 as
-127 and the timer never writes -128); spawn_sequence however is written
unclamped as the low byte of its twos complement, and on decode both signed
fields are sign extended without re-clamping, so a stored byte 0x80 decodes
to -128. -/
theorem c5_encode_clamping (tbl : List LabelItem) (r : ForgeRecord) (e : List Nat)
    (he : buildEntryScalarBytes tbl r = some e) :
    (∀ v : Int, clampU8 v ≤ 255) ∧
    e.getD OFF_CAN_DESPAWN 0 = clampU8 r.can_despawn ∧
    e.getD OFF_SPAWN_TIME 0 = clampU8 r.spawn_time ∧
    e.getD OFF_SPAWN_CHAN 0 = clampU8 r.spawn_channel ∧
    e.getD OFF_TIMER_USER 0 = toU8TwosComplement (clampS8Timer r.timer_user_data) ∧
    (-127 ≤ clampS8Timer r.timer_user_data ∧ clampS8Timer r.timer_user_data ≤ 127) ∧
    clampS8Timer 200 = 127 ∧
    clampS8Timer (-200) = -127 ∧
    e.getD OFF_SPAWN_SEQ 0 = toU8TwosComplement r.spawn_sequence ∧
    s8FromByte 128 = -128 ∧
    (∀ v : Int, -128 ≤ v → v ≤ 127 → s8FromByte (toU8TwosComplement v) = v) := by
  have hclamp : ∀ v : Int, clampU8 v ≤ 255 := fun v => by
    unfold clampU8
    split
    · omega
    · split <;> omega
  cases htr : getExportTypeTriple r with
  | none => simp [buildEntryScalarBytes, htr] at he
  | some tri =>
    obtain ⟨t, s, p⟩ := tri
    have hbuild : buildEntryScalarBytes tbl r = some (buildEntryBody tbl r t s p) := by
      simp only [buildEntryScalarBytes, htr]
    have he2 : e = buildEntryBody tbl r t s p := by
      rw [he] at hbuild
      exact Option.some.inj hbuild
    rw [he2]
    obtain ⟨hlen, h00, h30, h31, h3B, h3C, h3D, h3E, h3F, h40, h41, h42, h43, _, _, _, _,
      h48, h49⟩ := buildEntryBody_getD tbl r t s p
    rw [clampU8_coe_of_le _ (Nat.lt_succ_iff.mp (toU8TwosComplement_lt _))] at h42
    refine ⟨hclamp, h3D, h3F, h43, h42, ?_, by decide, by decide, h41, by decide, ?_⟩
    · unfold clampS8Timer
      split
      · omega
      · split <;> omega
    · intro v h1 h2
      exact s8FromByte_toU8 v h1 h2

/-- Witness for the amended claim C5 at a concrete record. -/
theorem c5_encode_clamping_witness :
    clampS8Timer 200 = 127 ∧ clampS8Timer (-200) = -127 ∧ s8FromByte 128 = -128 := by
  have htr : getExportTypeTriple rRoundTrip = some (0, 0, 0) := by decide
  have hbuild : buildEntryScalarBytes [] rRoundTrip =
      some (buildEntryBody [] rRoundTrip 0 0 0) := by
    simp only [buildEntryScalarBytes, htr]
  have h := c5_encode_clamping [] rRoundTrip _ hbuild
  exact ⟨h.2.2.2.2.2.2.1, h.2.2.2.2.2.2.2.1, h.2.2.2.2.2.2.2.2.2.1⟩

/-- Counterexample to claim C5 as stated: spawn_sequence is not clamped to
[-127, 127] on encode. Encoding a record with spawn_sequence -128 writes the
byte 0x80 (128), while the claimed clamp would write the byte of -127
(0x81, that is 129). -/
theorem c5_claim_counterexample :
    (buildEntryScalarBytes [] rSeqNegOneTwoEight).map (fun e => e.getD OFF_SPAWN_SEQ 0) =
      some 128 ∧
    toU8TwosComplement (clampS8Timer (-128)) = 129 := by
  refine ⟨by decide, by decide⟩

/-- Claim C6: for every pair of stored forward and up vectors (all reals in
this model are finite, and no division by zero occurs along the guarded
paths, which is the real-model reading of the no-NaN clause), the decoded
basis is orthonormal and right handed: the final axis z equals cross x y, and
a near-zero forward is replaced by the +X axis. -/
theorem c6_orthonormal_repair (fwd up : Vec3) :
    lengthSq (decodeBasis fwd up).1 = 1 ∧
    lengthSq (decodeBasis fwd up).2.1 = 1 ∧
    lengthSq (decodeBasis fwd up).2.2 = 1 ∧
    dot (decodeBasis fwd up).1 (decodeBasis fwd up).2.1 = 0 ∧
    dot (decodeBasis fwd up).1 (decodeBasis fwd up).2.2 = 0 ∧
    dot (decodeBasis fwd up).2.1 (decodeBasis fwd up).2.2 = 0 ∧
    (decodeBasis fwd up).2.2 = cross (decodeBasis fwd up).1 (decodeBasis fwd up).2.1 ∧
    (vlen fwd < 1e-8 → (decodeBasis fwd up).1 = ⟨1, 0, 0⟩) := by
  have hx1 : (decodeBasis fwd up).1 = repairX fwd := rfl
  have hx2 : (decodeBasis fwd up).2.1 = yFinal (repairX fwd) (repairZ up) := rfl
  have hx3 : (decodeBasis fwd up).2.2 =
      zFinal (repairX fwd) (yFinal (repairX fwd) (repairZ up)) := rfl
  rw [hx1, hx2, hx3]
  have hx := repairX_unit fwd
  have hz0 := repairZ_unit up
  obtain ⟨hy1, hy2⟩ := yFinal_spec (repairX fwd) (repairZ up) hx hz0
  obtain ⟨hzeq, hz1⟩ := zFinal_spec _ _ hx hy1 hy2
  refine ⟨hx, hy1, hz1, hy2, ?_, ?_, hzeq, ?_⟩
  · rw [hzeq]
    exact dot_cross_self_left _ _
  · rw [hzeq]
    exact dot_cross_right_arg _ _
  · intro h
    unfold repairX
    rw [if_pos h]

/-- Witness for claim C6: the degenerate zero forward is repaired to +X. -/
theorem c6_orthonormal_repair_witness :
    (decodeBasis ⟨0, 0, 0⟩ ⟨0, 0, 1⟩).1 = ⟨1, 0, 0⟩ ∧
    lengthSq (decodeBasis ⟨0, 0, 0⟩ ⟨0, 0, 1⟩).2.2 = 1 := by
  have h := c6_orthonormal_repair ⟨0, 0, 0⟩ ⟨0, 0, 1⟩
  refine ⟨h.2.2.2.2.2.2.2 ?_, h.2.2.1⟩
  have : vlen (⟨0, 0, 0⟩ : Vec3) = 0 := by
    unfold vlen
    rw [show lengthSq (⟨0, 0, 0⟩ : Vec3) = 0 from by norm_num [lengthSq, dot]]
    exact Real.sqrt_zero
  rw [this]
  norm_num

/-- Claim C7: decode maps a stored index to the matching table name and falls
back to the empty string for index 0xFF or a missing index; encode maps a
stored name to the matching index by a case-insensitive comparison and falls
back to 0xFF for an empty or missing name. -/
theorem c7_label_translation (tbl : List LabelItem) (idx : Nat) (nm : String) :
    (idx % 256 = 255 → findLabelNameByIndex tbl idx = "") ∧
    ((∀ it ∈ tbl, it.index % 256 ≠ idx % 256) → findLabelNameByIndex tbl idx = "") ∧
    (∀ it, idx % 256 ≠ 255 →
      tbl.find? (fun it2 => it2.index % 256 == idx % 256) = some it →
      findLabelNameByIndex tbl idx = strTrim it.name) ∧
    (strTrim nm = "" → findLabelIndexByName tbl nm = 255) ∧
    ((∀ it ∈ tbl, ¬ (strTrim it.name ≠ "" ∧ strLower (strTrim it.name) =
      strLower (strTrim nm))) → findLabelIndexByName tbl nm = 255) ∧
    (∀ it, strTrim nm ≠ "" → strTrim nm ≠ LABEL_NONE_ID →
      tbl.find? (fun it2 => strTrim it2.name != "" &&
        strLower (strTrim it2.name) == strLower (strTrim nm)) = some it →
      findLabelIndexByName tbl nm = it.index % 256) := by
  refine ⟨?_, ?_, ?_, ?_, ?_, ?_⟩
  · intro h
    unfold findLabelNameByIndex
    rw [if_pos h]
  · intro h
    unfold findLabelNameByIndex
    split
    · rfl
    · rw [List.find?_eq_none.mpr (fun it hit => by simpa using h it hit)]
  · intro it hne hfind
    unfold findLabelNameByIndex
    rw [if_neg hne, hfind]
  · intro h
    simp only [findLabelIndexByName]
    rw [if_pos (by simp [h])]
  · intro h
    simp only [findLabelIndexByName]
    split
    · rfl
    · rw [List.find?_eq_none.mpr (fun it hit => ?_)]
      have hnot := h it hit
      simp only [Bool.and_eq_true, bne_iff_ne, ne_eq, beq_iff_eq]
      intro hcon
      exact hnot ⟨hcon.1, hcon.2⟩
  · intro it hne hnid hfind
    simp only [findLabelIndexByName]
    rw [if_neg (by simp [hne, hnid]), hfind]

/-- Witness for claim C7 on a one-row table, matched case insensitively. -/
theorem c7_label_translation_witness :
    findLabelNameByIndex tblScale 3 = "Scale" ∧
    findLabelIndexByName tblScale "scale" = 3 := by
  have h := c7_label_translation tblScale 3 "scale"
  constructor
  · have h3 := h.2.2.1 ⟨"Scale", 3⟩ (by decide) (by decide)
    rw [h3]
    decide
  · have h6 := h.2.2.2.2.2 ⟨"Scale", 3⟩ (by decide) (by decide) (by decide)
    rw [h6]
    decide

/-- Claim C8: the hard-coded one-percent breakpoint returns exactly 0.01 for
convention 330X at -20 and for every other convention at -10, and the 1X
convention returns 1.0 at every non-breakpoint value. -/
theorem c8_scale_breakpoints (conv team : String) (v : Int) :
    spawnSeqToScale (-20) "330X" team = 1 / 100 ∧
    (conv ≠ "330X" → spawnSeqToScale (-10) conv team = 1 / 100) ∧
    (v ≠ -10 → spawnSeqToScale v "1X" team = 1) := by
  refine ⟨by simp [spawnSeqToScale], ?_, ?_⟩
  · intro h
    simp [spawnSeqToScale, h]
  · intro h
    simp [spawnSeqToScale, h]

/-- Witness for claim C8 at the concrete breakpoint and identity values. -/
theorem c8_scale_breakpoints_witness :
    spawnSeqToScale (-10) "47X" "NONE" = 1 / 100 ∧
    spawnSeqToScale 0 "1X" "NONE" = 1 := by
  have h := c8_scale_breakpoints "47X" "NONE" 0
  exact ⟨h.2.1 (by decide), h.2.2 (by decide)⟩

/-- Claim C9: zero iterations return the base; each further iteration adds
the floor divisions by 33 and by 228 of the running value; and the result is
monotone in the iteration count for a positive base. -/
theorem c9_recursive_330x (b : Int) (i j : Nat) :
    recursive_330x 0 b = b ∧
    recursive_330x (i + 1) b =
      recursive_330x i b + ((recursive_330x i b).fdiv 33 + (recursive_330x i b).fdiv 228) ∧
    (0 < b → i ≤ j → recursive_330x i b ≤ recursive_330x j b) := by
  refine ⟨rfl, rfl, ?_⟩
  intro hb hij
  have hpos : ∀ n, 0 < recursive_330x n b := by
    intro n
    induction n with
    | zero => exact hb
    | succ m ih =>
      have h33 : 0 ≤ (recursive_330x m b).fdiv 33 :=
        Int.fdiv_nonneg (le_of_lt ih) (by norm_num)
      have h228 : 0 ≤ (recursive_330x m b).fdiv 228 :=
        Int.fdiv_nonneg (le_of_lt ih) (by norm_num)
      show 0 < recursive_330x m b + ((recursive_330x m b).fdiv 33 +
        (recursive_330x m b).fdiv 228)
      omega
  have step : ∀ n, recursive_330x n b ≤ recursive_330x (n + 1) b := by
    intro n
    have h33 : 0 ≤ (recursive_330x n b).fdiv 33 :=
      Int.fdiv_nonneg (le_of_lt (hpos n)) (by norm_num)
    have h228 : 0 ≤ (recursive_330x n b).fdiv 228 :=
      Int.fdiv_nonneg (le_of_lt (hpos n)) (by norm_num)
    show recursive_330x n b ≤ recursive_330x n b + ((recursive_330x n b).fdiv 33 +
      (recursive_330x n b).fdiv 228)
    omega
  have chain : ∀ k, recursive_330x i b ≤ recursive_330x (i + k) b := by
    intro k
    induction k with
    | zero => exact le_refl _
    | succ m ih => exact le_trans ih (step (i + m))
  have hj : j = i + (j - i) := by omega
  rw [hj]
  exact chain (j - i)

/-- Witness for claim C9 at base 100. -/
theorem c9_recursive_330x_witness :
    recursive_330x 0 100 = 100 ∧ recursive_330x 1 100 ≤ recursive_330x 3 100 := by
  have h := c9_recursive_330x 100 1 3
  exact ⟨h.1, h.2.2 (by decide) (by decide)⟩

/-- Claim C10: records with object color 1 encode the team byte as 0
(defender) regardless of the team field; all other colors write the team
field unchanged; hence the encoder is not the identity on the team field for
such records with a nonzero team, as the concrete record shows. -/
theorem c10_red_color_forces_defender (tbl : List LabelItem) (r : ForgeRecord) (e : List Nat)
    (he : buildEntryScalarBytes tbl r = some e) :
    (r.object_color = 1 → e.getD OFF_TEAM_INDEX 0 = 0) ∧
    (r.object_color ≠ 1 → r.team ≤ 255 → e.getD OFF_TEAM_INDEX 0 = r.team) ∧
    (∃ e2, buildEntryScalarBytes [] rCosmicRed = some e2 ∧ rCosmicRed.object_color = 1 ∧
      rCosmicRed.team = 2 ∧ e2.getD OFF_TEAM_INDEX 0 = 0) := by
  cases htr : getExportTypeTriple r with
  | none => simp [buildEntryScalarBytes, htr] at he
  | some tri =>
    obtain ⟨t, s, p⟩ := tri
    have hbuild : buildEntryScalarBytes tbl r = some (buildEntryBody tbl r t s p) := by
      simp only [buildEntryScalarBytes, htr]
    have he2 : e = buildEntryBody tbl r t s p := by
      rw [he] at hbuild
      exact Option.some.inj hbuild
    rw [he2]
    obtain ⟨_, _, _, _, _, _, _, h3E, _⟩ := buildEntryBody_getD tbl r t s p
    refine ⟨?_, ?_, ?_⟩
    · intro h
      rw [h3E]
      have : resolveTeamByte r = 0 := by
        simp [resolveTeamByte, isRedTeamCosmic, COSMIC_RED_COLOR_VALUE,
          COSMIC_FORCE_DEFENDERS_TEAM, COSMIC_DEFENDERS_TEAM_VALUE, h]
      rw [this]
      decide
    · intro h1 h2
      rw [h3E]
      have : resolveTeamByte r = r.team := by
        simp [resolveTeamByte, isRedTeamCosmic, COSMIC_RED_COLOR_VALUE,
          COSMIC_FORCE_DEFENDERS_TEAM, COSMIC_DEFENDERS_TEAM_VALUE, h1]
      rw [this]
      exact clampU8_coe_of_le _ h2
    · have htr2 : getExportTypeTriple rCosmicRed = some (0, 0, 0) := by decide
      exact ⟨buildEntryBody [] rCosmicRed 0 0 0, by simp only [buildEntryScalarBytes, htr2],
        by decide, by decide, by decide⟩

/-- Witness for claim C10 at the concrete red-colored record with team 2. -/
theorem c10_red_color_forces_defender_witness :
    ∃ e, buildEntryScalarBytes [] rCosmicRed = some e ∧ e.getD OFF_TEAM_INDEX 0 = 0 := by
  have htr : getExportTypeTriple rCosmicRed = some (0, 0, 0) := by decide
  have hbuild : buildEntryScalarBytes [] rCosmicRed =
      some (buildEntryBody [] rCosmicRed 0 0 0) := by
    simp only [buildEntryScalarBytes, htr]
  have h := c10_red_color_forces_defender [] rCosmicRed _ hbuild
  exact ⟨_, hbuild, h.1 (by decide)⟩

end ForgeBridge
